import Mathlib

/-!
Verification of the agent-core pipeline of the beauty-tour-solution
repository (packages/agentcore): request classification, the knowledge
store/retrieve workflow, the structured itinerary synthesizer and its
deterministic fallback.

The Python sources are embedded shallowly:

* external capabilities (the text-generation tool `use_llm`, the semantic
  store `memory`, pydantic `structured_output`) are an explicit
  environment `Env`; a call that raises a Python exception is modelled as
  `Except.error`;
* every pipeline function additionally returns the list of external calls
  it made (`CallEvent`), so claims about which calls happen are theorems
  about traces;
* Python `str` values are Lean `String`s; `str.lower/strip/replace/in`
  are re-implemented below on `List Char`;
* `json.dumps` / `json.loads` are modelled by an executable printer and
  an executable fuelled recognizer over an explicit JSON value type;
* `datetime.now()` is the `today : Date` field of the environment, and
  `strftime("%Y-%m-%d")` / `timedelta(days=n)` are implemented on a
  calendar `Date` type.
-/

set_option maxRecDepth 100000

/-! ## Python string primitives -/

def isPySpace (c : Char) : Bool :=
  c.toNat == 32 || c.toNat == 9 || c.toNat == 10 || c.toNat == 13
    || c.toNat == 11 || c.toNat == 12

/-- Python `str.strip()` on a char list. -/
def pyStripL (l : List Char) : List Char :=
  ((l.dropWhile isPySpace).reverse.dropWhile isPySpace).reverse

/-- Python `str.lower()` (ASCII case fold, which covers every string the
pipeline compares). -/
def pyLower (l : List Char) : List Char :=
  l.map Char.toLower

/-- `hasPfxB p s` = `s.startswith(p)` (Boolean prefix test). -/
def hasPfxB : List Char → List Char → Bool
  | [], _ => true
  | _ :: _, [] => false
  | p :: ps, c :: cs => p == c && hasPfxB ps cs

/-- Python `pat in text` (substring containment). -/
def containsTok : List Char → List Char → Bool
  | text, pat =>
    if hasPfxB pat text then true
    else
      match text with
      | [] => false
      | _ :: cs => containsTok cs pat

/-- Python `text.replace(pat, rep)` (all non-overlapping occurrences,
left to right; the replacement text is not rescanned).  Structural on a
fuel that the wrapper instantiates large enough for every input. -/
def replaceAllAux (pat rep : List Char) : Nat → List Char → List Char
  | 0, s => s
  | _ + 1, [] => []
  | fuel + 1, c :: cs =>
    if hasPfxB pat (c :: cs) && !pat.isEmpty then
      rep ++ replaceAllAux pat rep fuel ((c :: cs).drop pat.length)
    else
      c :: replaceAllAux pat rep fuel cs

def replaceAll (pat rep s : List Char) : List Char :=
  replaceAllAux pat rep s.length s

/-- Normalisation applied by both classifiers: `str(result).lower().strip()`. -/
def pyNormalize (s : String) : List Char :=
  pyStripL (pyLower s.data)

/-! ## Calendar dates (`datetime.date` as used by the sources) -/

structure Date where
  year : Nat
  month : Nat
  day : Nat
deriving DecidableEq

def isLeapYear (y : Nat) : Bool :=
  (y % 4 == 0 && y % 100 != 0) || (y % 400 == 0)

def daysInMonth (y m : Nat) : Nat :=
  if m == 2 then (if isLeapYear y then 29 else 28)
  else if m == 4 || m == 6 || m == 9 || m == 11 then 30
  else 31

def Date.next (d : Date) : Date :=
  if d.day < daysInMonth d.year d.month then ⟨d.year, d.month, d.day + 1⟩
  else if d.month < 12 then ⟨d.year, d.month + 1, 1⟩
  else ⟨d.year + 1, 1, 1⟩

/-- `today + timedelta(days = n)`. -/
def Date.addDays (d : Date) : Nat → Date
  | 0 => d
  | n + 1 => (Date.addDays d n).next

/-- Decimal digit character. -/
def digitChar : Nat → Char
  | 0 => '0' | 1 => '1' | 2 => '2' | 3 => '3' | 4 => '4'
  | 5 => '5' | 6 => '6' | 7 => '7' | 8 => '8' | _ => '9'

/-- Decimal rendering of a natural number, most significant digit first.
Structural on a fuel; `n + 1` steps always suffice since the argument is
divided by ten at every step. -/
def natToCharsAux : Nat → Nat → List Char
  | 0, _ => []
  | fuel + 1, n =>
    if n < 10 then [digitChar n]
    else natToCharsAux fuel (n / 10) ++ [digitChar (n % 10)]

def natToChars (n : Nat) : List Char := natToCharsAux (n + 1) n

/-- Left-pad with `'0'` to width `w`. -/
def padZeros (w : Nat) (ds : List Char) : List Char :=
  List.replicate (w - ds.length) '0' ++ ds

/-- `d.strftime("%Y-%m-%d")`. -/
def strftimeYmd (d : Date) : String :=
  ⟨padZeros 4 (natToChars d.year) ++ '-' :: padZeros 2 (natToChars d.month)
    ++ '-' :: padZeros 2 (natToChars d.day)⟩

/-! ## JSON values, printer (json.dumps) and recognizer (json.loads) -/

mutual
inductive JVal where
  | null : JVal
  | bool : Bool → JVal
  /-- `num m k` denotes the decimal number `m / 10 ^ k`; `k = 0` is a
  Python `int`, `k > 0` a float literal such as `0.3 = num 3 1`. -/
  | num : Nat → Nat → JVal
  | str : String → JVal
  | arr : JArr → JVal
  | obj : JObj → JVal
deriving DecidableEq

inductive JArr where
  | nil : JArr
  | cons : JVal → JArr → JArr
deriving DecidableEq

inductive JObj where
  | nil : JObj
  | cons : String → JVal → JObj → JObj
deriving DecidableEq
end

mutual
/-- `json.dumps` with the default separators `", "` and `": "`. -/
def printV : JVal → List Char
  | .null => ['\x6e', 'u', '\x6c', 'l']
  | .bool true => ['\x74', 'r', '\x75', 'e']
  | .bool false => ['\x66', 'a', '\x6c', 's', 'e']
  | .num m 0 => natToChars m
  | .num m (k + 1) =>
      natToChars (m / 10 ^ (k + 1)) ++ '.' :: padZeros (k + 1) (natToChars (m % 10 ^ (k + 1)))
  | .str s => '"' :: s.data ++ ['"']
  | .arr .nil => ['[', ']']
  | .arr (.cons h t) => '[' :: (printV h ++ printA t)
  | .obj .nil => ['\x7b', '\x7d']
  | .obj (.cons k v t) =>
      '\x7b' :: (('"' :: k.data ++ '"' :: ':' :: ' ' :: printV v) ++ printO t)

def printA : JArr → List Char
  | .nil => [']']
  | .cons h t => ',' :: ' ' :: (printV h ++ printA t)

def printO : JObj → List Char
  | .nil => ['\x7d']
  | .cons k v t => ',' :: ' ' :: (('"' :: k.data ++ '"' :: ':' :: ' ' :: printV v) ++ printO t)
end

/-- One printed object member: `"key": value`. -/
def printField (k : String) (v : JVal) : List Char :=
  '"' :: k.data ++ '"' :: ':' :: ' ' :: printV v

def jsonDumps (v : JVal) : String := ⟨printV v⟩

def isWsChar (c : Char) : Bool :=
  c.toNat == 32 || c.toNat == 9 || c.toNat == 10 || c.toNat == 13

def skipWs : List Char → List Char
  | [] => []
  | c :: cs => if isWsChar c then skipWs cs else c :: cs

/-- Skip the body of a JSON string literal after its opening quote. -/
def skipStringBody : List Char → Option (List Char)
  | [] => none
  | c :: cs =>
    if c == '"' then some cs
    else if c == '\\' then
      match cs with
      | [] => none
      | _ :: cs2 => skipStringBody cs2
    else skipStringBody cs

def isDigitCh (c : Char) : Bool :=
  48 ≤ c.toNat && c.toNat ≤ 57

/-- One or more decimal digits, greedily. -/
def skipDigits1 : List Char → Option (List Char)
  | [] => none
  | c :: cs => if isDigitCh c then some (cs.dropWhile isDigitCh) else none

def skipFrac (s : List Char) : Option (List Char) :=
  match s with
  | [] => some []
  | c :: cs => if c == '.' then skipDigits1 cs else some (c :: cs)

def skipExp (s : List Char) : Option (List Char) :=
  match s with
  | [] => some []
  | c :: cs =>
    if c == 'e' || c == 'E' then
      match cs with
      | [] => none
      | d :: ds => if d == '+' || d == '-' then skipDigits1 ds else skipDigits1 cs
    else some (c :: cs)

/-- A JSON number token: optional sign, digits, optional fraction and
exponent. -/
def skipNumber (s : List Char) : Option (List Char) :=
  let s1 := match s with
    | [] => []
    | c :: cs => if c == '-' then cs else c :: cs
  match skipDigits1 s1 with
  | none => none
  | some s2 =>
    match skipFrac s2 with
    | none => none
    | some s3 => skipExp s3

/-- `dropPfxL p s` consumes the literal `p` from the front of `s`. -/
def dropPfxL : List Char → List Char → Option (List Char)
  | [], s => some s
  | _ :: _, [] => none
  | p :: ps, c :: cs => if c == p then dropPfxL ps cs else none

mutual
/-- Fuelled JSON value recognizer; consumes one value and returns the
remaining input. -/
def skipVal : Nat → List Char → Option (List Char)
  | 0, _ => none
  | _ + 1, [] => none
  | f + 1, c :: cs =>
    if c == 'n' then dropPfxL ['u', 'l', 'l'] cs
    else if c == 't' then dropPfxL ['r', 'u', 'e'] cs
    else if c == 'f' then dropPfxL ['a', 'l', 's', 'e'] cs
    else if c == '"' then skipStringBody cs
    else if c == '[' then
      match skipWs cs with
      | [] => none
      | d :: ds => if d == ']' then some ds else skipElems f (d :: ds)
    else if c == '\x7b' then
      match skipWs cs with
      | [] => none
      | d :: ds => if d == '\x7d' then some ds else skipMembers f (d :: ds)
    else skipNumber (c :: cs)

/-- Elements of a non-empty array, up to and including the closing `]`. -/
def skipElems : Nat → List Char → Option (List Char)
  | 0, _ => none
  | f + 1, s =>
    match skipVal f s with
    | none => none
    | some r =>
      match skipWs r with
      | [] => none
      | d :: ds =>
        if d == ',' then skipElems f (skipWs ds)
        else if d == ']' then some ds
        else none

/-- Members of a non-empty object, up to and including the closing brace. -/
def skipMembers : Nat → List Char → Option (List Char)
  | 0, _ => none
  | f + 1, s =>
    match s with
    | [] => none
    | c :: cs =>
      if c == '"' then
        match skipStringBody cs with
        | none => none
        | some r =>
          match skipWs r with
          | [] => none
          | d :: ds =>
            if d == ':' then
              match skipVal f (skipWs ds) with
              | none => none
              | some r2 =>
                match skipWs r2 with
                | [] => none
                | e :: es =>
                  if e == ',' then skipMembers f (skipWs es)
                  else if e == '\x7d' then some es
                  else none
            else none
      else none
end

/-- `json.loads(s)` succeeds: one JSON value surrounded by optional
whitespace.  The fuel `s.length + 2` bounds the recursion depth, which the
recognizer never exceeds on any accepted input. -/
def jsonAcceptsL (l : List Char) : Bool :=
  match skipVal (l.length + 2) (skipWs l) with
  | some r => (skipWs r).isEmpty
  | none => false

def jsonAccepts (s : String) : Bool := jsonAcceptsL s.data

/-! ### JSON accessors used to state properties of the fallback dict -/

def objGet : JObj → String → Option JVal
  | .nil, _ => none
  | .cons k v t, key => if k == key then some v else objGet t key

def jPath : JVal → List String → Option JVal
  | v, [] => some v
  | .obj o, k :: ks =>
    match objGet o k with
    | some v => jPath v ks
    | none => none
  | _, _ :: _ => none

def jInt (v : JVal) : Option Nat :=
  match v with
  | .num m 0 => some m
  | _ => none

def aLen : JArr → Nat
  | .nil => 0
  | .cons _ t => aLen t + 1

def jFirst (v : JVal) : Option JVal :=
  match v with
  | .arr (.cons h _) => some h
  | _ => none

def jIntAt (v : JVal) (path : List String) : Option Nat :=
  (jPath v path).bind jInt

/-- Number of entries of the `"activities"` array of a day object. -/
def dayActCount (d : JVal) : Nat :=
  match jPath d ["activities"] with
  | some (.arr a) => aLen a
  | _ => 0

def sumActsA : JArr → Nat
  | .nil => 0
  | .cons d t => dayActCount d + sumActsA t

/-- Sum of per-day activity counts of the `"schedule"` array. -/
def jSumActs (v : JVal) : Option Nat :=
  match jPath v ["schedule"] with
  | some (.arr a) => some (sumActsA a)
  | _ => none

def jLenAt (v : JVal) (path : List String) : Option Nat :=
  match jPath v path with
  | some (.arr a) => some (aLen a)
  | _ => none

def JArr.ofList : List JVal → JArr
  | [] => .nil
  | v :: t => .cons v (JArr.ofList t)

def JObj.ofList : List (String × JVal) → JObj
  | [] => .nil
  | (k, v) :: t => .cons k v (JObj.ofList t)

def jarr (l : List JVal) : JVal := .arr (JArr.ofList l)

def jobj (l : List (String × JVal)) : JVal := .obj (JObj.ofList l)

/-! ## Data model of `agents/trip_planner.py` (pydantic models) -/

/-- Individual activity within a day's schedule. -/
structure Activity where
  time : String
  activity : String
  location : String
  duration : String
  cost : Int
  description : String
  category : String
deriving DecidableEq

/-- Complete schedule for a single day. -/
structure DaySchedule where
  date : String
  dayNumber : Int
  activities : List Activity
  totalCost : Int
  notes : String
deriving DecidableEq

/-- Detailed cost breakdown for the entire trip. -/
structure CostBreakdown where
  treatments : Int
  accommodation : Int
  transportation : Int
  activities : Int
  total : Int
  budgetUtilization : ℚ
deriving DecidableEq

/-- Trip summary statistics. -/
structure Summary where
  totalDays : Int
  totalActivities : Int
  totalThemes : Int
  estimatedCost : Int
deriving DecidableEq

/-- Complete trip schedule with all details. -/
structure TripSchedule where
  schedule : List DaySchedule
  costBreakdown : CostBreakdown
  summary : Summary
deriving DecidableEq

/-! ## External capabilities

The pipeline's collaborators (`agent.tool.use_llm`, `agent.tool.memory`,
`agent.structured_output`, the wall clock) are an explicit environment.
A Python exception raised by a capability is `Except.error`. -/

/-- A raised Python exception, identified by its message (`str(e)`). -/
structure PyErr where
  msg : String
deriving DecidableEq

structure Env where
  /-- `agent.tool.use_llm(prompt=…, system_prompt=…)`, rendered to text. -/
  useLlm : String → String → Except PyErr String
  /-- `agent.tool.memory(action="store", content=…)`. -/
  memStore : String → Except PyErr Unit
  /-- `agent.tool.memory(action="retrieve", query=…, min_score=…, max_results=…)`;
  `some s` is a truthy (non-empty) result rendered to text, `none` a falsy one. -/
  memRetrieve : String → ℚ → Nat → Except PyErr (Option String)
  /-- `agent.structured_output(TripSchedule, prompt)`: pydantic either returns
  a schema-valid value or raises. -/
  structuredOutput : String → Except PyErr TripSchedule
  /-- `datetime.now()`, at day granularity. -/
  today : Date

/-- One external capability call, recorded in order of occurrence. -/
inductive CallEvent where
  | useLlm (prompt system_prompt : String)
  | memStore (content : String)
  | memRetrieve (query : String) (min_score : ℚ) (max_results : Nat)
  | structuredOutput (prompt : String)
deriving DecidableEq

/-! ## `agents/trip_planner.py` -/

namespace TP

def TRIP_PLANNER_SYSTEM_PROMPT : String := "
You are a professional beauty and medical tourism consultant specializing in creating detailed, structured schedules.

Your task is to generate a comprehensive beauty journey schedule.

SCHEDULING PRINCIPLES:
- Day 1: Arrival, consultation, light activities
- Middle days: Main treatments with adequate recovery time
- Final day: Follow-up appointments, departure preparation
- Balance treatment intensity with recovery needs
- Consider jet lag and travel fatigue

COST GUIDELINES:
- Consultation: $100-300
- Basic treatments: $200-500
- Advanced treatments: $500-1500
- Major procedures: $1500-5000
- Accommodation: $100-400 per night
- Transportation: $50-200 per trip

All dates must be in ISO format (YYYY-MM-DD).
All costs must be realistic numbers for the specified region.
Activities must be logically scheduled with appropriate timing and recovery periods.
"

/-- `generate_fallback_schedule` of `agents/trip_planner.py`: the static
three-day fallback itinerary, dated from `datetime.now()`. -/
def generate_fallback_schedule (today : Date) : TripSchedule :=
  { schedule := [
      { date := strftimeYmd today
        dayNumber := 1
        activities := [
          { time := "09:00"
            activity := "Rhinoplasty Consultation"
            location := "Seoul Plastic Surgery Center, Gangnam District"
            duration := "90min"
            cost := 300
            description := "Comprehensive nose surgery consultation with 3D imaging and surgical planning with board-certified plastic surgeon"
            category := "surgery" },
          { time := "11:30"
            activity := "Anti-Aging Facial Treatment"
            location := "Premium Skin Clinic"
            duration := "75min"
            cost := 280
            description := "Advanced facial treatment with peptides and hyaluronic acid to reduce fine lines and improve skin texture"
            category := "skin" },
          { time := "14:00"
            activity := "Nutritional Consultation & Meal Planning"
            location := "K-Beauty Wellness Center"
            duration := "60min"
            cost := 150
            description := "Personalized diet plan consultation focusing on foods that enhance skin health and post-surgery recovery"
            category := "diet" },
          { time := "16:00"
            activity := "Hair Scalp Analysis & Treatment"
            location := "Seoul Hair Restoration Clinic"
            duration := "45min"
            cost := 200
            description := "Professional scalp examination and PRP hair treatment to stimulate hair growth and improve hair density"
            category := "hair" }]
        totalCost := 930
        notes := "Initial consultation day covering multiple beauty categories to assess treatment options and create comprehensive plan." },
      { date := strftimeYmd (today.addDays 1)
        dayNumber := 2
        activities := [
          { time := "09:00"
            activity := "Double Eyelid Surgery"
            location := "Seoul Plastic Surgery Center, Gangnam District"
            duration := "3h"
            cost := 2500
            description := "Blepharoplasty procedure to create natural-looking double eyelids using advanced suture technique"
            category := "surgery" },
          { time := "14:00"
            activity := "Post-Surgery Recovery Meal"
            location := "Medical Recovery Cafe"
            duration := "45min"
            cost := 35
            description := "Anti-inflammatory meal with collagen-rich ingredients designed to support surgical healing"
            category := "diet" },
          { time := "16:00"
            activity := "Gel Nail Art & Manicure"
            location := "Luxury Nail Salon Gangnam"
            duration := "90min"
            cost := 120
            description := "Professional gel manicure with Korean nail art designs and cuticle care treatment"
            category := "nail" },
          { time := "18:30"
            activity := "Professional Makeup Lesson"
            location := "K-Beauty Makeup Studio"
            duration := "2h"
            cost := 250
            description := "Personal makeup tutorial focusing on Korean beauty techniques and post-surgery makeup application"
            category := "makeup" }]
        totalCost := 2905
        notes := "Major surgery day with complementary beauty treatments scheduled around recovery time." },
      { date := strftimeYmd (today.addDays 2)
        dayNumber := 3
        activities := [
          { time := "10:00"
            activity := "Post-Surgery Follow-up"
            location := "Seoul Plastic Surgery Center, Gangnam District"
            duration := "45min"
            cost := 100
            description := "Post-operative examination, wound care, and recovery progress assessment"
            category := "surgery" },
          { time := "12:00"
            activity := "Hydrating Skin Mask Treatment"
            location := "Premium Skin Clinic"
            duration := "60min"
            cost := 180
            description := "Intensive hydration mask treatment to soothe skin and promote healing after procedures"
            category := "skin" },
          { time := "14:30"
            activity := "Hair Styling & Keratin Treatment"
            location := "Premium Hair Salon"
            duration := "2h"
            cost := 300
            description := "Professional hair styling with keratin treatment to smooth and strengthen hair texture"
            category := "hair" },
          { time := "17:00"
            activity := "Healthy Smoothie & Supplement Consultation"
            location := "Wellness Nutrition Center"
            duration := "30min"
            cost := 80
            description := "Customized vitamin and supplement plan with antioxidant smoothie for optimal recovery"
            category := "diet" },
          { time := "18:00"
            activity := "Pedicure & Foot Spa Treatment"
            location := "Luxury Nail Salon Gangnam"
            duration := "75min"
            cost := 100
            description := "Relaxing pedicure with foot massage and nail art to complete beauty transformation"
            category := "nail" }]
        totalCost := 760
        notes := "Final day focusing on recovery care and completing beauty treatments across all categories." }]
    costBreakdown := {
      treatments := 3200
      accommodation := 450
      transportation := 120
      activities := 825
      total := 4595
      budgetUtilization := 0.85 }
    summary := {
      totalDays := 3
      totalActivities := 12
      totalThemes := 6
      estimatedCost := 4595 } }

/-- `process_trip_planner_query` of `agents/trip_planner.py`: one
structured-generation call; `model_dump()` of the result on success, the
fallback schedule on any exception. -/
def process_trip_planner_query (env : Env) (query : String) :
    TripSchedule × List CallEvent :=
  let prompt := TRIP_PLANNER_SYSTEM_PROMPT ++ query
  match env.structuredOutput prompt with
  | .ok result => (result, [CallEvent.structuredOutput prompt])
  | .error _ => (generate_fallback_schedule env.today, [CallEvent.structuredOutput prompt])

end TP

/-! ## `agents/query_classifier.py` -/

/-- Enum for different query types (defined identically in
`agents/query_classifier.py` and `main.py`). -/
inductive QueryType where
  | DEFAULT : QueryType
  | TRIP_PLANNER : QueryType
deriving DecidableEq

namespace QC

def QUERY_TYPE_CLASSIFIER_PROMPT : String := "
You are a query type classifier. Analyze the user\x27s query and respond with ONLY one word:
- \"trip-planner\" if the query is asking for structured beauty tour schedule generation, travel planning, or itinerary creation
- \"default\" for all other queries (knowledge base questions, general information, storage requests)

Trip-planner indicators:
- Mentions \"generate a detailed, structured beauty tour schedule\"
- Contains \"respond with ONLY a valid JSON object\"
- Asks for \"schedule generation\" or \"beauty tour schedule\"
- Requests travel itinerary, treatment planning, or structured trip data
- Contains destination, dates, themes, budget information for planning

Default query indicators:
- General questions about beauty treatments, procedures, or information
- Requests to store or retrieve information from knowledge base
- Conversational queries not related to structured planning

Respond with only \"trip-planner\" or \"default\".
"

/-- `determine_query_type` of `agents/query_classifier.py`: one
classification call; any exception is caught and mapped to `DEFAULT`. -/
def determine_query_type (env : Env) (query : String) :
    QueryType × List CallEvent :=
  let prompt := "Query: " ++ query
  let ev := CallEvent.useLlm prompt QUERY_TYPE_CLASSIFIER_PROMPT
  match env.useLlm prompt QUERY_TYPE_CLASSIFIER_PROMPT with
  | .error _ => (QueryType.DEFAULT, [ev])
  | .ok result =>
    let query_type_text := pyNormalize result
    if containsTok query_type_text ("trip-planner").data then
      (QueryType.TRIP_PLANNER, [ev])
    else
      (QueryType.DEFAULT, [ev])

end QC

/-! ## `agents/default_query_handler.py` -/

namespace DQH

def ACTION_SYSTEM_PROMPT : String := "
You are a classifier that determines user intent. Analyze the user\x27s query and respond with ONLY one word:
- \"store\" if the user wants to save, remember, or store information
- \"retrieve\" if the user is asking a question or wants to get information

Examples:
- \"Remember that my birthday is July 25\" -> store
- \"What is my birthday?\" -> retrieve
- \"Save this information: I like pizza\" -> store
- \"Tell me about pizza\" -> retrieve

Respond with only \"store\" or \"retrieve\".
"

def ANSWER_SYSTEM_PROMPT : String := "
You are a helpful assistant that answers questions based on information from a knowledge base.
Use the provided information to give accurate, helpful responses.
If the information is not sufficient, say so clearly.
"

/-- `determine_action` of `agents/default_query_handler.py`: one
classification call with no try/except — an exception propagates. -/
def determine_action (env : Env) (query : String) :
    Except PyErr String × List CallEvent :=
  let prompt := "Query: " ++ query
  let ev := CallEvent.useLlm prompt ACTION_SYSTEM_PROMPT
  match env.useLlm prompt ACTION_SYSTEM_PROMPT with
  | .error e => (.error e, [ev])
  | .ok result =>
    let action_text := pyNormalize result
    if containsTok action_text ("store").data then
      (.ok "store", [ev])
    else
      (.ok "retrieve", [ev])

/-- `process_default_query` of `agents/default_query_handler.py`.  The
`memory(action="retrieve", …)` call is commented out in the source, so
the retrieve branch goes straight to answer synthesis. -/
def process_default_query (env : Env) (query : String) :
    Except PyErr String × List CallEvent :=
  match determine_action env query with
  | (.error e, t) => (.error e, t)
  | (.ok action, t) =>
    if action == "store" then
      let ev := CallEvent.memStore query
      match env.memStore query with
      | .error e => (.error e, t ++ [ev])
      | .ok _ => (.ok "I\x27ve stored this information in the knowledge base.", t ++ [ev])
    else
      let ev := CallEvent.useLlm query ANSWER_SYSTEM_PROMPT
      match env.useLlm query ANSWER_SYSTEM_PROMPT with
      | .error e =>
        (.ok ("I encountered an issue retrieving information: " ++ e.msg), t ++ [ev])
      | .ok answer => (.ok answer, t ++ [ev])

end DQH

/-! ## `main.py` -/

namespace Main

def QUERY_TYPE_CLASSIFIER_PROMPT : String := "
You are a query type classifier. Analyze the user\x27s query and respond with ONLY one word:
- \"trip-planner\" if the query is asking for structured beauty journey schedule generation, travel planning, or itinerary creation
- \"default\" for all other queries (knowledge base questions, general information, storage requests)

Trip-planner indicators:
- Mentions \"generate a detailed, structured beauty journey schedule\"
- Contains \"respond with ONLY a valid JSON object\"
- Asks for \"schedule generation\" or \"beauty journey schedule\"
- Requests travel itinerary, treatment planning, or structured trip data
- Contains destination, dates, themes, budget information for planning

Default query indicators:
- General questions about beauty treatments, procedures, or information
- Requests to store or retrieve information from knowledge base
- Conversational queries not related to structured planning

Respond with only \"trip-planner\" or \"default\".
"

def ACTION_SYSTEM_PROMPT : String := "
You are a classifier that determines user intent. Analyze the user\x27s query and respond with ONLY one word:
- \"store\" if the user wants to save, remember, or store information
- \"retrieve\" if the user is asking a question or wants to get information

Examples:
- \"Remember that my birthday is July 25\" -> store
- \"What is my birthday?\" -> retrieve
- \"Save this information: I like pizza\" -> store
- \"Tell me about pizza\" -> retrieve

Respond with only \"store\" or \"retrieve\".
"

def ANSWER_SYSTEM_PROMPT : String := "
You are a helpful assistant that answers questions based on information from a knowledge base.
Use the provided information to give accurate, helpful responses.
If the information is not sufficient, say so clearly.
"

def TRIP_PLANNER_SYSTEM_PROMPT : String := "
You are a professional beauty and medical tourism consultant specializing in creating detailed, structured schedules.

Your task is to generate a comprehensive beauty journey schedule in valid JSON format.

CRITICAL REQUIREMENTS:
1. You MUST respond with ONLY a valid JSON object - no additional text, explanations, or formatting
2. The JSON must follow the exact structure specified in the user\x27s request
3. All dates must be in ISO format (YYYY-MM-DD)
4. All costs must be realistic numbers for the specified region
5. Activities must be logically scheduled with appropriate timing and recovery periods
6. Include variety in treatments while respecting the selected themes

SCHEDULING PRINCIPLES:
- Day 1: Arrival, consultation, light activities
- Middle days: Main treatments with adequate recovery time
- Final day: Follow-up appointments, departure preparation
- Balance treatment intensity with recovery needs
- Consider jet lag and travel fatigue

COST GUIDELINES:
- Consultation: $100-300
- Basic treatments: $200-500
- Advanced treatments: $500-1500
- Major procedures: $1500-5000
- Accommodation: $100-400 per night
- Transportation: $50-200 per trip

Remember: Respond with ONLY the JSON object, nothing else.
"

/-- `determine_query_type` of `main.py` (same logic as the
`query_classifier.py` copy, with the `main.py` prompt text). -/
def determine_query_type (env : Env) (query : String) :
    QueryType × List CallEvent :=
  let prompt := "Query: " ++ query
  let ev := CallEvent.useLlm prompt QUERY_TYPE_CLASSIFIER_PROMPT
  match env.useLlm prompt QUERY_TYPE_CLASSIFIER_PROMPT with
  | .error _ => (QueryType.DEFAULT, [ev])
  | .ok result =>
    let query_type_text := pyNormalize result
    if containsTok query_type_text ("trip-planner").data then
      (QueryType.TRIP_PLANNER, [ev])
    else
      (QueryType.DEFAULT, [ev])

/-- `determine_action` of `main.py`: no try/except — an exception from the
capability call propagates to the caller. -/
def determine_action (env : Env) (query : String) :
    Except PyErr String × List CallEvent :=
  let prompt := "Query: " ++ query
  let ev := CallEvent.useLlm prompt ACTION_SYSTEM_PROMPT
  match env.useLlm prompt ACTION_SYSTEM_PROMPT with
  | .error e => (.error e, [ev])
  | .ok result =>
    let action_text := pyNormalize result
    if containsTok action_text ("store").data then
      (.ok "store", [ev])
    else
      (.ok "retrieve", [ev])

/-- `process_default_query` of `main.py`: the store branch and the action
classification run outside any try/except; the retrieve branch is wrapped
in try/except. -/
def process_default_query (env : Env) (query : String) :
    Except PyErr String × List CallEvent :=
  match determine_action env query with
  | (.error e, t) => (.error e, t)
  | (.ok action, t) =>
    if action == "store" then
      let ev := CallEvent.memStore query
      match env.memStore query with
      | .error e => (.error e, t ++ [ev])
      | .ok _ => (.ok "I\x27ve stored this information in the knowledge base.", t ++ [ev])
    else
      let ev := CallEvent.memRetrieve query 0.4 9
      match env.memRetrieve query 0.4 9 with
      | .error e =>
        (.ok ("I encountered an issue retrieving information: " ++ e.msg), t ++ [ev])
      | .ok result =>
        match result with
        | some resultText =>
          let prompt := "User question: \"" ++ query
            ++ "\"\n\nInformation from knowledge base:\n" ++ resultText
          let ev2 := CallEvent.useLlm prompt ANSWER_SYSTEM_PROMPT
          match env.useLlm prompt ANSWER_SYSTEM_PROMPT with
          | .error e =>
            (.ok ("I encountered an issue retrieving information: " ++ e.msg),
              t ++ [ev, ev2])
          | .ok answer => (.ok answer, t ++ [ev, ev2])
        | none =>
          (.ok "I couldn\x27t find any relevant information in the knowledge base for your query.",
            t ++ [ev])

/-- The fallback dict literal of `generate_fallback_schedule` in `main.py`,
as a JSON value; `todayStr` is `datetime.now().strftime("%Y-%m-%d")`. -/
def fallbackJson (todayStr : String) : JVal :=
  jobj [
    ("schedule", jarr [
      jobj [
        ("date", .str todayStr),
        ("dayNumber", .num 1 0),
        ("activities", jarr [
          jobj [
            ("time", .str "09:00"),
            ("activity", .str "Initial Consultation"),
            ("location", .str "Beauty Clinic"),
            ("duration", .str "2h"),
            ("cost", .num 200 0),
            ("description", .str "Comprehensive consultation and treatment planning"),
            ("category", .str "consultation")],
          jobj [
            ("time", .str "14:00"),
            ("activity", .str "Skin Analysis"),
            ("location", .str "Beauty Clinic"),
            ("duration", .str "1h"),
            ("cost", .num 150 0),
            ("description", .str "Advanced skin analysis and assessment"),
            ("category", .str "consultation")]]),
        ("totalCost", .num 350 0),
        ("notes", .str "Arrival day with initial assessments - fallback data")]]),
    ("recommendations", jobj [
      ("clinics", jarr [
        jobj [
          ("name", .str "Premium Beauty Center"),
          ("rating", .num 45 1),
          ("specialties", jarr [.str "skincare", .str "wellness"]),
          ("location", .str "City Center"),
          ("estimatedCost", .num 1500 0),
          ("description", .str "Well-established clinic with experienced professionals")]]),
      ("accommodation", jarr [
        jobj [
          ("name", .str "Recovery Hotel"),
          ("type", .str "medical-hotel"),
          ("rating", .num 42 1),
          ("amenities", jarr [.str "medical support", .str "recovery rooms"]),
          ("location", .str "Near medical district"),
          ("pricePerNight", .num 150 0),
          ("description", .str "Comfortable accommodation for medical tourists")]]),
      ("transportation", jarr [
        jobj [
          ("type", .str "airport-transfer"),
          ("provider", .str "Medical Transport Service"),
          ("estimatedCost", .num 60 0),
          ("description", .str "Reliable transfer service")]])]),
    ("costBreakdown", jobj [
      ("treatments", .num 350 0),
      ("accommodation", .num 150 0),
      ("transportation", .num 60 0),
      ("activities", .num 0 0),
      ("total", .num 560 0),
      ("budgetUtilization", .num 3 1)]),
    ("summary", jobj [
      ("totalDays", .num 1 0),
      ("totalActivities", .num 2 0),
      ("totalThemes", .num 1 0),
      ("estimatedCost", .num 560 0)])]

/-- `generate_fallback_schedule` of `main.py`: builds the fallback dict
from `datetime.now()` and returns `json.dumps` of it. -/
def generate_fallback_schedule (today : Date) : String :=
  jsonDumps (fallbackJson (strftimeYmd today))

/-- The markdown-fence stripping of `process_trip_planner_query`
(`main.py`, lines 183-186). -/
def stripFences (s : List Char) : List Char :=
  if hasPfxB ("```json").data s then
    pyStripL (replaceAll ("```").data [] (replaceAll ("```json").data [] s))
  else if hasPfxB ("```").data s then
    pyStripL (replaceAll ("```").data [] s)
  else s

/-- `process_trip_planner_query` of `main.py`: one generation call; the
cleaned text is returned when `json.loads` accepts it, otherwise (parse
failure or any exception) the JSON-serialized fallback schedule. -/
def process_trip_planner_query (env : Env) (query : String) :
    String × List CallEvent :=
  let ev := CallEvent.useLlm query TRIP_PLANNER_SYSTEM_PROMPT
  match env.useLlm query TRIP_PLANNER_SYSTEM_PROMPT with
  | .error _ => (generate_fallback_schedule env.today, [ev])
  | .ok result =>
    let result_str := stripFences (pyStripL result.data)
    if jsonAcceptsL result_str then
      (⟨result_str⟩, [ev])
    else
      (generate_fallback_schedule env.today, [ev])

/-- The response envelope built by `invoke`. -/
structure Envelope where
  result : String
deriving DecidableEq

/-- `invoke` of `main.py`: the entry point.  A raised exception anywhere on
the dispatched path escapes as `Except.error`. -/
def invoke (env : Env) (payload : Option String) :
    Except PyErr Envelope × List CallEvent :=
  let user_message := payload.getD "Hello! How can I help you today?"
  match determine_query_type env user_message with
  | (qt, t1) =>
    match qt with
    | QueryType.TRIP_PLANNER =>
      match process_trip_planner_query env user_message with
      | (r, t2) => (.ok ⟨r⟩, t1 ++ t2)
    | QueryType.DEFAULT =>
      match process_default_query env user_message with
      | (.error e, t2) => (.error e, t1 ++ t2)
      | (.ok r, t2) => (.ok ⟨r⟩, t1 ++ t2)

end Main

/-! ## Catalog Validator (spec §4.3) -/

/-- Modelled from the spec: the caller-supplied catalog entry (§3,
"Activity (catalog entry)": id, name, location, price, theme; the
working-hours table is not consulted by the validator and is omitted).
The catalog-constrained synthesis code is not under `src/`; only the spec
describes it. -/
structure CatalogActivity where
  id : String
  name : String
  location : String
  price : Nat
  theme : String
deriving DecidableEq

/-- Modelled from the spec: ScheduleItem (§3): activityId, scheduledTime,
duration, status, notes (the optional price override plays no role in the
validator). -/
structure SpecScheduleItem where
  activityId : String
  scheduledTime : String
  duration : String
  status : String
  notes : String
deriving DecidableEq

/-- Modelled from the spec: ScheduleDay (§3): date, dayNumber, ordered
items, notes. -/
structure SpecScheduleDay where
  date : String
  dayNumber : Nat
  items : List SpecScheduleItem
  notes : String
deriving DecidableEq

/-- Modelled from the spec (§4.3, Catalog Validator): if an item's
activityId is not in the set of supplied catalog ids, replace it with the
first catalog id and append the fixed "(Activity ID corrected)" marker to
its notes. -/
def validateActivityId (ids : List String) (firstId : String)
    (it : SpecScheduleItem) : SpecScheduleItem :=
  if ids.contains it.activityId then it
  else { it with
          activityId := firstId,
          notes := it.notes ++ " (Activity ID corrected)" }

/-- Modelled from the spec (§4.3): run the Catalog Validator over every
ScheduleItem of every day.  With an empty catalog there is no
catalog-constrained mode, so the schedule is returned unchanged. -/
def validateScheduleDays (catalog : List CatalogActivity)
    (days : List SpecScheduleDay) : List SpecScheduleDay :=
  match catalog with
  | [] => days
  | c :: _ =>
    let ids := catalog.map (fun a => a.id)
    days.map (fun d => { d with items := d.items.map (validateActivityId ids c.id) })

/-! ## Claim theorems -/

/-- C4: after the Catalog Validator runs over a catalog-constrained
synthesis result, every ScheduleItem.activityId is an element of the
supplied catalog's id set; an item whose generated activityId was not in
that set has it replaced with the first catalog id and the fixed
"(Activity ID corrected)" marker appended to its notes; the day/time/
duration structure (day count, per-day fields, item count, per-item
scheduledTime/duration/status) is preserved. -/
theorem catalog_validator_referential_integrity
    (catalog : List CatalogActivity) (c : CatalogActivity)
    (cs : List CatalogActivity) (hc : catalog = c :: cs)
    (days : List SpecScheduleDay) :
    (∀ d ∈ validateScheduleDays catalog days, ∀ it ∈ d.items,
        it.activityId ∈ catalog.map (fun a => a.id)) ∧
    List.Forall₂ (fun d' d =>
        d'.date = d.date ∧ d'.dayNumber = d.dayNumber ∧ d'.notes = d.notes ∧
        List.Forall₂ (fun it' it =>
            it'.scheduledTime = it.scheduledTime ∧
            it'.duration = it.duration ∧
            it'.status = it.status ∧
            (it.activityId ∈ catalog.map (fun a => a.id) → it' = it) ∧
            (it.activityId ∉ catalog.map (fun a => a.id) →
              it'.activityId = c.id ∧
              it'.notes = it.notes ++ " (Activity ID corrected)"))
          d'.items d.items)
      (validateScheduleDays catalog days) days := by
  subst hc
  constructor
  · intro d hd it hit
    simp only [validateScheduleDays, List.mem_map] at hd
    obtain ⟨d0, -, rfl⟩ := hd
    simp only [List.mem_map] at hit
    obtain ⟨it0, -, rfl⟩ := hit
    unfold validateActivityId
    split
    · next h => exact List.elem_iff.mp h
    · simp
  · simp only [validateScheduleDays]
    rw [List.forall₂_map_left_iff, List.forall₂_same]
    intro d _
    refine ⟨rfl, rfl, rfl, ?_⟩
    rw [List.forall₂_map_left_iff, List.forall₂_same]
    intro it _
    unfold validateActivityId
    split
    · next h =>
      exact ⟨rfl, rfl, rfl, fun _ => rfl,
        fun hnm => absurd (List.elem_iff.mp h) hnm⟩
    · next h =>
      exact ⟨rfl, rfl, rfl,
        fun hm => absurd (List.elem_iff.mpr hm) h,
        fun _ => ⟨rfl, rfl⟩⟩

deriving instance DecidableEq for Except

/-- Concrete day list used to witness the Catalog Validator claims. -/
def wCatalog : List CatalogActivity :=
  [{ id := "act-1", name := "Facial", location := "Seoul", price := 100, theme := "skin" },
   { id := "act-2", name := "Manicure", location := "Seoul", price := 60, theme := "nail" }]

def wDays : List SpecScheduleDay :=
  [{ date := "2025-03-01", dayNumber := 1,
     items := [{ activityId := "bogus-id", scheduledTime := "09:00", duration := "1h",
                 status := "planned", notes := "morning" }],
     notes := "day one" }]

/-- Witness for C4: at a concrete two-entry catalog and a one-day schedule
whose only item has an id outside the catalog, the repaired item's id is in
the catalog id set, and the repaired schedule is as the validator dictates. -/
theorem catalog_validator_referential_integrity_witness :
    validateScheduleDays wCatalog wDays =
      [{ date := "2025-03-01", dayNumber := 1,
         items := [{ activityId := "act-1", scheduledTime := "09:00", duration := "1h",
                     status := "planned", notes := "morning (Activity ID corrected)" }],
         notes := "day one" }] ∧
    ({ activityId := "act-1", scheduledTime := "09:00", duration := "1h",
       status := "planned", notes := "morning (Activity ID corrected)" } : SpecScheduleItem).activityId
      ∈ wCatalog.map (fun a => a.id) := by
  have h := (catalog_validator_referential_integrity wCatalog _ _ rfl wDays).1
  refine ⟨by decide, ?_⟩
  exact h
    { date := "2025-03-01", dayNumber := 1,
      items := [{ activityId := "act-1", scheduledTime := "09:00", duration := "1h",
                  status := "planned", notes := "morning (Activity ID corrected)" }],
      notes := "day one" }
    (by decide)
    { activityId := "act-1", scheduledTime := "09:00", duration := "1h",
      status := "planned", notes := "morning (Activity ID corrected)" }
    (by decide)

/-- Environment in which every capability call raises. -/
def envAllRaise : Env :=
  { useLlm := fun _ _ => .error { msg := "boom" }
    memStore := fun _ => .error { msg := "boom" }
    memRetrieve := fun _ _ _ => .error { msg := "boom" }
    structuredOutput := fun _ => .error { msg := "boom" }
    today := { year := 2025, month := 1, day := 1 } }

/-- C5 counterexample: when the generation capability raises, the action
classifier (`determine_action`, in both `main.py` and
`agents/default_query_handler.py`) does not catch the exception and does
not return the safe default "retrieve" — the exception propagates. -/
theorem determine_action_propagates_counterexample :
    (Main.determine_action envAllRaise "What is my birthday?").1
        = Except.error { msg := "boom" } ∧
    (DQH.determine_action envAllRaise "What is my birthday?").1
        = Except.error { msg := "boom" } ∧
    (Main.determine_action envAllRaise "What is my birthday?").1
        ≠ Except.ok "retrieve" := by
  refine ⟨rfl, rfl, by decide⟩

/-- C5 (amended): `determine_query_type` (both copies) catches a raised
capability exception locally and returns the safe default DEFAULT;
`determine_action` (both copies) has no local handler, so a raised
capability exception propagates to its caller unchanged. -/
theorem classifier_error_handling_amended (env : Env) (q : String) (e : PyErr) :
    (env.useLlm ("Query: " ++ q) Main.QUERY_TYPE_CLASSIFIER_PROMPT = .error e →
      Main.determine_query_type env q =
        (QueryType.DEFAULT,
         [CallEvent.useLlm ("Query: " ++ q) Main.QUERY_TYPE_CLASSIFIER_PROMPT])) ∧
    (env.useLlm ("Query: " ++ q) QC.QUERY_TYPE_CLASSIFIER_PROMPT = .error e →
      QC.determine_query_type env q =
        (QueryType.DEFAULT,
         [CallEvent.useLlm ("Query: " ++ q) QC.QUERY_TYPE_CLASSIFIER_PROMPT])) ∧
    (env.useLlm ("Query: " ++ q) Main.ACTION_SYSTEM_PROMPT = .error e →
      (Main.determine_action env q).1 = .error e) ∧
    (env.useLlm ("Query: " ++ q) DQH.ACTION_SYSTEM_PROMPT = .error e →
      (DQH.determine_action env q).1 = .error e) := by
  refine ⟨?_, ?_, ?_, ?_⟩
  · intro h
    simp only [Main.determine_query_type, h]
  · intro h
    simp only [QC.determine_query_type, h]
  · intro h
    simp only [Main.determine_action, h]
  · intro h
    simp only [DQH.determine_action, h]

/-- Witness for C5's amended theorem, at the all-raising environment. -/
theorem classifier_error_handling_amended_witness :
    (Main.determine_action envAllRaise "hello").1 = .error { msg := "boom" } ∧
    Main.determine_query_type envAllRaise "hello" =
      (QueryType.DEFAULT,
       [CallEvent.useLlm "Query: hello" Main.QUERY_TYPE_CLASSIFIER_PROMPT]) := by
  have h := classifier_error_handling_amended envAllRaise "hello" { msg := "boom" }
  exact ⟨h.2.2.1 rfl, h.1 rfl⟩

/-- C6: both classifiers decide by containment on the case-folded trimmed
capability output: the type classifier returns TRIP_PLANNER exactly when
the normalized text contains "trip-planner" (else DEFAULT), and the action
classifier returns "store" exactly when it contains "store" (else
"retrieve"); no value outside the two-label set is ever returned. -/
theorem classifier_containment_semantics (env : Env) (q t : String) :
    (env.useLlm ("Query: " ++ q) QC.QUERY_TYPE_CLASSIFIER_PROMPT = .ok t →
      ((QC.determine_query_type env q).1 = QueryType.TRIP_PLANNER ↔
        containsTok (pyNormalize t) ("trip-planner").data = true) ∧
      ((QC.determine_query_type env q).1 = QueryType.DEFAULT ↔
        containsTok (pyNormalize t) ("trip-planner").data = false)) ∧
    (env.useLlm ("Query: " ++ q) DQH.ACTION_SYSTEM_PROMPT = .ok t →
      ((DQH.determine_action env q).1 = .ok "store" ↔
        containsTok (pyNormalize t) ("store").data = true) ∧
      ((DQH.determine_action env q).1 = .ok "retrieve" ↔
        containsTok (pyNormalize t) ("store").data = false) ∧
      ((DQH.determine_action env q).1 = .ok "store" ∨
       (DQH.determine_action env q).1 = .ok "retrieve")) := by
  constructor
  · intro h
    simp only [QC.determine_query_type, h]
    by_cases hc : containsTok (pyNormalize t) ("trip-planner").data = true
    · simp [hc]
    · simp only [Bool.not_eq_true] at hc
      simp [hc]
  · intro h
    simp only [DQH.determine_action, h]
    by_cases hc : containsTok (pyNormalize t) ("store").data = true
    · simp [hc]
    · simp only [Bool.not_eq_true] at hc
      simp [hc]

/-- Environment returning the positive label for the type classifier and
the "store" label for the action classifier; store writes succeed. -/
def envLabels : Env :=
  { useLlm := fun _ sys =>
      if sys == QC.QUERY_TYPE_CLASSIFIER_PROMPT then .ok "trip-planner"
      else .ok "store"
    memStore := fun _ => .ok ()
    memRetrieve := fun _ _ _ => .ok none
    structuredOutput := fun _ => .error { msg := "x" }
    today := { year := 2025, month := 1, day := 1 } }

/-- Witness for C6 at a concrete environment: the type classifier maps
"trip-planner" text to TRIP_PLANNER and the action classifier maps
"store" text to "store". -/
theorem classifier_containment_semantics_witness :
    (QC.determine_query_type envLabels "plan a trip").1 = QueryType.TRIP_PLANNER ∧
    (DQH.determine_action envLabels "remember this").1 = .ok "store" := by
  have h1 := (classifier_containment_semantics envLabels "plan a trip" "trip-planner").1
    (by decide)
  have h2 := (classifier_containment_semantics envLabels "remember this" "store").2
    (by decide)
  exact ⟨h1.1.mpr (by decide), h2.1.mpr (by decide)⟩

/-- C9: whenever a query is classified "store" and the store write returns,
both handlers write the query text verbatim to the semantic store and
return the fixed acknowledgment; the trace is exactly the classification
call followed by the store write — no confirmation probe, no duplicate
check, no retrieval. -/
theorem store_branch_verbatim_ack (env : Env) (q t : String)
    (hc : env.useLlm ("Query: " ++ q) Main.ACTION_SYSTEM_PROMPT = .ok t)
    (hs : containsTok (pyNormalize t) ("store").data = true)
    (hw : env.memStore q = .ok ()) :
    Main.process_default_query env q =
      (.ok "I\x27ve stored this information in the knowledge base.",
       [CallEvent.useLlm ("Query: " ++ q) Main.ACTION_SYSTEM_PROMPT,
        CallEvent.memStore q]) ∧
    DQH.process_default_query env q =
      (.ok "I\x27ve stored this information in the knowledge base.",
       [CallEvent.useLlm ("Query: " ++ q) DQH.ACTION_SYSTEM_PROMPT,
        CallEvent.memStore q]) := by
  have hc2 : env.useLlm ("Query: " ++ q) DQH.ACTION_SYSTEM_PROMPT = .ok t := hc
  constructor
  · simp only [Main.process_default_query, Main.determine_action, hc, hs, if_pos, hw]
    rfl
  · simp only [DQH.process_default_query, DQH.determine_action, hc2, hs, if_pos, hw]
    rfl

/-- Witness for C9 at a concrete environment and the spec's own scenario
text. -/
theorem store_branch_verbatim_ack_witness :
    Main.process_default_query envLabels "Remember that my birthday is July 25" =
      (.ok "I\x27ve stored this information in the knowledge base.",
       [CallEvent.useLlm "Query: Remember that my birthday is July 25"
          Main.ACTION_SYSTEM_PROMPT,
        CallEvent.memStore "Remember that my birthday is July 25"]) := by
  exact (store_branch_verbatim_ack envLabels "Remember that my birthday is July 25"
    "store" (by decide) (by decide) rfl).1

/-- Environment for the C8 counterexample: the action classifier answers
"retrieve", answer synthesis returns a fixed text, and the semantic store
would report no matches if it were ever consulted. -/
def envC8 : Env :=
  { useLlm := fun _ sys =>
      if sys == DQH.ACTION_SYSTEM_PROMPT then .ok "retrieve"
      else .ok "synthesized answer"
    memStore := fun _ => .ok ()
    memRetrieve := fun _ _ _ => .ok none
    structuredOutput := fun _ => .error { msg := "x" }
    today := { year := 2025, month := 1, day := 1 } }

/-- C8 counterexample: in the `agents/default_query_handler.py` handler the
retrieve branch never queries the semantic store (the retrieve call is
commented out) and always invokes answer synthesis: at a concrete
environment whose store has no matches, the trace contains no retrieve
call and the result is the synthesized answer, not the not-found
message. -/
theorem dqh_retrieve_skips_store_counterexample :
    DQH.process_default_query envC8 "What is my birthday?" =
      (.ok "synthesized answer",
       [CallEvent.useLlm "Query: What is my birthday?" DQH.ACTION_SYSTEM_PROMPT,
        CallEvent.useLlm "What is my birthday?" DQH.ANSWER_SYSTEM_PROMPT]) := by
  decide

/-- C8 (amended): in the `main.py` handler every semantic-store retrieval
uses the fixed floor 0.4 and cap 9, and an empty retrieval yields the
defined not-found message with no answer-synthesis call; in the
`agents/default_query_handler.py` handler the retrieve branch performs no
store retrieval at all and goes straight to answer synthesis. -/
theorem retrieve_branch_params_amended (env : Env) (q t : String)
    (hc : env.useLlm ("Query: " ++ q) Main.ACTION_SYSTEM_PROMPT = .ok t)
    (hr : containsTok (pyNormalize t) ("store").data = false) :
    (env.memRetrieve q 0.4 9 = .ok none →
      Main.process_default_query env q =
        (.ok "I couldn\x27t find any relevant information in the knowledge base for your query.",
         [CallEvent.useLlm ("Query: " ++ q) Main.ACTION_SYSTEM_PROMPT,
          CallEvent.memRetrieve q 0.4 9])) ∧
    (∀ q2 ms mr, CallEvent.memRetrieve q2 ms mr ∈ (Main.process_default_query env q).2 →
      q2 = q ∧ ms = 0.4 ∧ mr = 9) ∧
    (∀ q2 ms mr, CallEvent.memRetrieve q2 ms mr ∉ (DQH.process_default_query env q).2) := by
  have hif : (containsTok (pyNormalize t) ("store").data : Bool) = false := hr
  refine ⟨?_, ?_, ?_⟩
  · intro hnone
    simp only [Main.process_default_query, Main.determine_action, hc, hif,
      Bool.false_eq_true, if_false, hnone]
    rfl
  · intro q2 ms mr hmem
    rcases hret : env.memRetrieve q 0.4 9 with e | r
    · simp [Main.process_default_query, Main.determine_action, hc, hif, hret] at hmem
      exact ⟨hmem.1, hmem.2.1, hmem.2.2⟩
    · rcases r with _ | rtext
      · simp [Main.process_default_query, Main.determine_action, hc, hif, hret] at hmem
        exact ⟨hmem.1, hmem.2.1, hmem.2.2⟩
      · rcases hans : env.useLlm
          ("User question: \"" ++ q ++ "\"\n\nInformation from knowledge base:\n" ++ rtext)
          Main.ANSWER_SYSTEM_PROMPT with e2 | ans
        · simp [Main.process_default_query, Main.determine_action, hc, hif, hret, hans]
            at hmem
          exact ⟨hmem.1, hmem.2.1, hmem.2.2⟩
        · simp [Main.process_default_query, Main.determine_action, hc, hif, hret, hans]
            at hmem
          exact ⟨hmem.1, hmem.2.1, hmem.2.2⟩
  · intro q2 ms mr hmem
    have hc2 : env.useLlm ("Query: " ++ q) DQH.ACTION_SYSTEM_PROMPT = .ok t := hc
    rcases hans : env.useLlm q DQH.ANSWER_SYSTEM_PROMPT with e2 | ans
    · simp [DQH.process_default_query, DQH.determine_action, hc2, hif, hans] at hmem
    · simp [DQH.process_default_query, DQH.determine_action, hc2, hif, hans] at hmem

/-- Witness for C8's amended theorem: the `main.py` handler on an empty
retrieval returns the not-found message after exactly the classification
call and one retrieval with floor 0.4 and cap 9. -/
theorem retrieve_branch_params_amended_witness :
    Main.process_default_query envC8 "What is my birthday?" =
      (.ok "I couldn\x27t find any relevant information in the knowledge base for your query.",
       [CallEvent.useLlm "Query: What is my birthday?" Main.ACTION_SYSTEM_PROMPT,
        CallEvent.memRetrieve "What is my birthday?" 0.4 9]) := by
  exact (retrieve_branch_params_amended envC8 "What is my birthday?" "retrieve"
    (by decide) (by decide)).1 rfl

/-- Environment for the C3 counterexample: the type classifier answers
"default", and every other generation call raises. -/
def envC3 : Env :=
  { useLlm := fun _ sys =>
      if sys == Main.QUERY_TYPE_CLASSIFIER_PROMPT then .ok "default"
      else .error { msg := "use_llm unavailable" }
    memStore := fun _ => .ok ()
    memRetrieve := fun _ _ _ => .ok none
    structuredOutput := fun _ => .error { msg := "x" }
    today := { year := 2025, month := 1, day := 1 } }

/-- C3 counterexample: `invoke` does raise past its own boundary — when the
action classifier's capability call raises, the exception escapes the
entry point instead of becoming a fallback value or an error string. -/
theorem invoke_raises_counterexample :
    (Main.invoke envC3 (some "hello")).1
      = Except.error { msg := "use_llm unavailable" } := by
  decide

/-- C3 (amended): `invoke` returns a value for every payload and every
behaviour of the external capabilities, provided the action
classification call and the store write do not raise; exceptions anywhere
else (type classification, generation, retrieval, answer synthesis) are
absorbed into the fallback output or a formatted error string.  Without
that proviso an exception propagates (see the counterexample). -/
theorem invoke_total_amended (env : Env) (payload : Option String)
    (h1 : ∀ p, ∃ t, env.useLlm p Main.ACTION_SYSTEM_PROMPT = .ok t)
    (h2 : ∀ c, env.memStore c = .ok ()) :
    ((Main.invoke env payload).1).isOk = true := by
  set q := payload.getD "Hello! How can I help you today?" with hq
  obtain ⟨t, ht⟩ := h1 ("Query: " ++ q)
  rcases hcls : env.useLlm ("Query: " ++ q) Main.QUERY_TYPE_CLASSIFIER_PROMPT with e | r
  · -- type classification raised: caught, DEFAULT path
    simp only [Main.invoke, Main.determine_query_type, Main.process_default_query,
      Main.determine_action, hcls, ht, ← hq]
    by_cases hs : containsTok (pyNormalize t) ("store").data = true
    · simp only [hs, if_pos, h2 q]
      rfl
    · simp only [Bool.not_eq_true] at hs
      simp only [hs]
      rcases hret : env.memRetrieve q 0.4 9 with e2 | r2
      · simp [hret, Except.isOk, Except.toBool]
      · rcases r2 with _ | rtext
        · simp [hret, Except.isOk, Except.toBool]
        · rcases hans : env.useLlm
            ("User question: \"" ++ q ++ "\"\n\nInformation from knowledge base:\n" ++ rtext)
            Main.ANSWER_SYSTEM_PROMPT with e3 | ans
          · simp [hret, hans, Except.isOk, Except.toBool]
          · simp [hret, hans, Except.isOk, Except.toBool]
  · -- type classification returned text r
    by_cases htp : containsTok (pyNormalize r) ("trip-planner").data = true
    · -- trip-planner path: always a value
      simp only [Main.invoke, Main.determine_query_type, hcls, htp, if_pos, ← hq]
      rcases hgen : env.useLlm q Main.TRIP_PLANNER_SYSTEM_PROMPT with e2 | g
      · simp [Main.process_trip_planner_query, hgen, Except.isOk, Except.toBool]
      · simp only [Main.process_trip_planner_query, hgen]
        by_cases hj : jsonAcceptsL (Main.stripFences (pyStripL g.data)) = true
        · simp [hj, Except.isOk, Except.toBool]
        · simp only [Bool.not_eq_true] at hj
          simp [hj, Except.isOk, Except.toBool]
    · simp only [Bool.not_eq_true] at htp
      simp only [Main.invoke, Main.determine_query_type, Main.process_default_query,
        Main.determine_action, hcls, htp, ht, ← hq]
      by_cases hs : containsTok (pyNormalize t) ("store").data = true
      · simp only [hs, if_pos, h2 q]
        rfl
      · simp only [Bool.not_eq_true] at hs
        simp only [hs]
        rcases hret : env.memRetrieve q 0.4 9 with e2 | r2
        · simp [hret, Except.isOk, Except.toBool]
        · rcases r2 with _ | rtext
          · simp [hret, Except.isOk, Except.toBool]
          · rcases hans : env.useLlm
              ("User question: \"" ++ q ++ "\"\n\nInformation from knowledge base:\n" ++ rtext)
              Main.ANSWER_SYSTEM_PROMPT with e3 | ans
            · simp [hret, hans, Except.isOk, Except.toBool]
            · simp [hret, hans, Except.isOk, Except.toBool]

/-- Witness for C3's amended theorem at a concrete environment whose
action-classification calls and store writes succeed. -/
theorem invoke_total_amended_witness :
    ((Main.invoke envLabels (some "hi")).1).isOk = true := by
  exact invoke_total_amended envLabels (some "hi")
    (fun p => ⟨"store", rfl⟩) (fun c => rfl)

/-- C1: on the itinerary path (both variants), if the generation capability
raises or its output fails JSON parsing/structural validation, the handler
returns the Fallback Generator's output; and in every case the trace holds
exactly one generation call, so a second generation call never occurs. -/
theorem trip_planner_fallback_no_retry (env : Env) (q : String) :
    ((Main.process_trip_planner_query env q).2
        = [CallEvent.useLlm q Main.TRIP_PLANNER_SYSTEM_PROMPT]) ∧
    ((TP.process_trip_planner_query env q).2
        = [CallEvent.structuredOutput (TP.TRIP_PLANNER_SYSTEM_PROMPT ++ q)]) ∧
    (∀ e, env.useLlm q Main.TRIP_PLANNER_SYSTEM_PROMPT = .error e →
      (Main.process_trip_planner_query env q).1
        = Main.generate_fallback_schedule env.today) ∧
    (∀ t, env.useLlm q Main.TRIP_PLANNER_SYSTEM_PROMPT = .ok t →
      jsonAcceptsL (Main.stripFences (pyStripL t.data)) = false →
      (Main.process_trip_planner_query env q).1
        = Main.generate_fallback_schedule env.today) ∧
    (∀ e, env.structuredOutput (TP.TRIP_PLANNER_SYSTEM_PROMPT ++ q) = .error e →
      (TP.process_trip_planner_query env q).1
        = TP.generate_fallback_schedule env.today) := by
  refine ⟨?_, ?_, ?_, ?_, ?_⟩
  · rcases hgen : env.useLlm q Main.TRIP_PLANNER_SYSTEM_PROMPT with e | t
    · simp [Main.process_trip_planner_query, hgen]
    · simp only [Main.process_trip_planner_query, hgen]
      by_cases hj : jsonAcceptsL (Main.stripFences (pyStripL t.data)) = true
      · simp [hj]
      · simp only [Bool.not_eq_true] at hj
        simp [hj]
  · rcases hgen : env.structuredOutput (TP.TRIP_PLANNER_SYSTEM_PROMPT ++ q) with e | r
    · simp [TP.process_trip_planner_query, hgen]
    · simp [TP.process_trip_planner_query, hgen]
  · intro e he
    simp [Main.process_trip_planner_query, he]
  · intro t ht hj
    simp [Main.process_trip_planner_query, ht, hj]
  · intro e he
    simp [TP.process_trip_planner_query, he]

/-- Witness for C1 at the all-raising environment: the itinerary handlers
return exactly the fallback output after a single generation call. -/
theorem trip_planner_fallback_no_retry_witness :
    (Main.process_trip_planner_query envAllRaise "plan a trip").1
        = Main.generate_fallback_schedule { year := 2025, month := 1, day := 1 } ∧
    (TP.process_trip_planner_query envAllRaise "plan a trip").1
        = TP.generate_fallback_schedule { year := 2025, month := 1, day := 1 } ∧
    (Main.process_trip_planner_query envAllRaise "plan a trip").2.length = 1 := by
  have h := trip_planner_fallback_no_retry envAllRaise "plan a trip"
  refine ⟨h.2.2.1 { msg := "boom" } rfl, h.2.2.2.2 { msg := "boom" } rfl, ?_⟩
  rw [h.1]
  rfl

/-- C2 audit: the `main.py` fallback dict satisfies every claimed
invariant (total = 350 + 150 + 60 + 0 = 560 = estimatedCost, totalDays =
schedule length = 1, totalActivities = per-day count sum = 2); the
`agents/trip_planner.py` fallback satisfies the cost identities
(total = 3200 + 450 + 120 + 825 = 4595 = estimatedCost,
totalDays = 3 = schedule length) but sets summary.totalActivities = 12
while its schedule holds 4 + 4 + 5 = 13 activities, breaking the
claimed per-day-count identity. -/
theorem fallback_cost_invariants_audit (d : Date) :
    ((TP.generate_fallback_schedule d).costBreakdown.total
        = (TP.generate_fallback_schedule d).costBreakdown.treatments
          + (TP.generate_fallback_schedule d).costBreakdown.accommodation
          + (TP.generate_fallback_schedule d).costBreakdown.transportation
          + (TP.generate_fallback_schedule d).costBreakdown.activities) ∧
    ((TP.generate_fallback_schedule d).summary.estimatedCost
        = (TP.generate_fallback_schedule d).costBreakdown.total) ∧
    ((TP.generate_fallback_schedule d).summary.totalDays
        = (TP.generate_fallback_schedule d).schedule.length) ∧
    ((TP.generate_fallback_schedule d).summary.totalActivities = 12) ∧
    (((TP.generate_fallback_schedule d).schedule.map
        (fun day => (day.activities.length : Int))).sum = 13) ∧
    ((TP.generate_fallback_schedule d).summary.totalActivities
        ≠ ((TP.generate_fallback_schedule d).schedule.map
            (fun day => (day.activities.length : Int))).sum) ∧
    (jIntAt (Main.fallbackJson (strftimeYmd d)) ["costBreakdown", "treatments"]
        = some 350) ∧
    (jIntAt (Main.fallbackJson (strftimeYmd d)) ["costBreakdown", "accommodation"]
        = some 150) ∧
    (jIntAt (Main.fallbackJson (strftimeYmd d)) ["costBreakdown", "transportation"]
        = some 60) ∧
    (jIntAt (Main.fallbackJson (strftimeYmd d)) ["costBreakdown", "activities"]
        = some 0) ∧
    (jIntAt (Main.fallbackJson (strftimeYmd d)) ["costBreakdown", "total"]
        = some (350 + 150 + 60 + 0)) ∧
    (jIntAt (Main.fallbackJson (strftimeYmd d)) ["summary", "estimatedCost"]
        = jIntAt (Main.fallbackJson (strftimeYmd d)) ["costBreakdown", "total"]) ∧
    (jIntAt (Main.fallbackJson (strftimeYmd d)) ["summary", "totalDays"] = some 1) ∧
    (jLenAt (Main.fallbackJson (strftimeYmd d)) ["schedule"] = some 1) ∧
    (jIntAt (Main.fallbackJson (strftimeYmd d)) ["summary", "totalActivities"]
        = some 2) ∧
    (jSumActs (Main.fallbackJson (strftimeYmd d)) = some 2) := by
  refine ⟨rfl, rfl, rfl, rfl, rfl, ?_, rfl, rfl, rfl, rfl, rfl, rfl, rfl, rfl,
    rfl, rfl⟩
  intro h
  have h12 : (12 : Int) = 13 := h
  omega

/-- C7 counterexample: the Fallback Generator is not a process-wide
constant — its output changes with the clock date — and the
`agents/trip_planner.py` variant's notes nowhere mark the result as a
fallback. -/
theorem fallback_not_constant_counterexample :
    TP.generate_fallback_schedule { year := 2025, month := 1, day := 1 }
      ≠ TP.generate_fallback_schedule { year := 2025, month := 1, day := 2 } ∧
    ((TP.generate_fallback_schedule { year := 2025, month := 1, day := 1 }).schedule.all
        (fun day => !containsTok (pyLower day.notes.data) ("fallback").data)) = true := by
  exact ⟨by decide, by decide⟩

/-- C7 (amended): `generate_fallback_schedule` (both variants) succeeds
unconditionally with no external capability calls and its output is a
non-empty schema-shaped itinerary determined solely by the current date:
clock dates with different renderings give different outputs; the
`main.py` variant's first-day notes mark it as fallback data, while the
`agents/trip_planner.py` variant carries no fallback marker at all. -/
theorem fallback_generator_amended (d d2 : Date) :
    ((TP.generate_fallback_schedule d).schedule.length = 3) ∧
    (∀ day ∈ (TP.generate_fallback_schedule d).schedule, day.activities ≠ []) ∧
    ((TP.generate_fallback_schedule d).schedule.all
        (fun day => !containsTok (pyLower day.notes.data) ("fallback").data) = true) ∧
    (jLenAt (Main.fallbackJson (strftimeYmd d)) ["schedule"] = some 1) ∧
    (((jPath (Main.fallbackJson (strftimeYmd d)) ["schedule"]).bind jFirst).bind
        (fun day => jPath day ["notes"])
        = some (.str "Arrival day with initial assessments - fallback data")) ∧
    (containsTok (pyLower ("Arrival day with initial assessments - fallback data").data)
        ("fallback").data = true) ∧
    (strftimeYmd d ≠ strftimeYmd d2 →
      TP.generate_fallback_schedule d ≠ TP.generate_fallback_schedule d2) := by
  refine ⟨rfl, ?_, ?_, rfl, rfl, by decide, ?_⟩
  · intro day hday
    simp only [TP.generate_fallback_schedule, List.mem_cons, List.mem_singleton,
      List.not_mem_nil] at hday
    rcases hday with rfl | rfl | rfl | h
    · simp
    · simp
    · simp
    · cases h
  · rfl
  · intro hne heq
    have h2 := congrArg
      (fun s : TripSchedule => (s.schedule.map (fun day => day.date)).head?) heq
    simp only [TP.generate_fallback_schedule, List.map_cons, List.head?_cons,
      Option.some.injEq] at h2
    exact hne h2

/-- Witness for C7's amended theorem: two concrete clock dates with
different renderings yield different fallback schedules. -/
theorem fallback_generator_amended_witness :
    TP.generate_fallback_schedule { year := 2025, month := 1, day := 1 }
      ≠ TP.generate_fallback_schedule { year := 2026, month := 2, day := 3 } := by
  exact (fallback_generator_amended
    { year := 2025, month := 1, day := 1 }
    { year := 2026, month := 2, day := 3 }).2.2.2.2.2.2 (by decide)

/-! ## Printer/recognizer round trip

The strings occurring in the pipeline's fallback dict contain no quote,
backslash or control characters, so `printV` (the model of `json.dumps`)
needs no escaping on them; `goodV` delimits that fragment, and the
round-trip lemma shows the recognizer (the model of `json.loads`) accepts
every printed good value. -/

def jsonSafeChar (c : Char) : Bool :=
  !(c == '"') && !(c == '\\')

def goodStr (s : String) : Bool := s.data.all jsonSafeChar

mutual
def goodV : JVal → Bool
  | .null => true
  | .bool _ => true
  | .num _ _ => true
  | .str s => goodStr s
  | .arr a => goodA a
  | .obj o => goodO o

def goodA : JArr → Bool
  | .nil => true
  | .cons h t => goodV h && goodA t

def goodO : JObj → Bool
  | .nil => true
  | .cons k v t => goodStr k && goodV v && goodO t
end

mutual
/-- Recursion-depth bound of the recognizer on a printed value. -/
def fuelV : JVal → Nat
  | .arr a => 1 + fuelA a
  | .obj o => 1 + fuelO o
  | _ => 1

def fuelA : JArr → Nat
  | .nil => 0
  | .cons h t => 1 + max (fuelV h) (fuelA t)

def fuelO : JObj → Nat
  | .nil => 0
  | .cons _ v t => 1 + max (fuelV v) (fuelO t)
end

/-- The input that follows a printed number token may not extend it. -/
def NotNumCont : List Char → Prop
  | [] => True
  | c :: _ => isDigitCh c = false ∧ c ≠ '.' ∧ c ≠ 'e' ∧ c ≠ 'E'

/-- The input that follows a printed digit run may not start with a digit. -/
def HeadNotDigit : List Char → Prop
  | [] => True
  | c :: _ => isDigitCh c = false

theorem char_ne_of_toNat_ne {c x : Char} (h : c.toNat ≠ x.toNat) : c ≠ x :=
  fun he => h (he ▸ rfl)

theorem digit_toNat {c : Char} (h : isDigitCh c = true) :
    48 ≤ c.toNat ∧ c.toNat ≤ 57 := by
  simp only [isDigitCh, Bool.and_eq_true, decide_eq_true_eq] at h
  exact h

theorem digit_beq_false_hi {c x : Char} (hc : isDigitCh c = true)
    (hx : 57 < x.toNat) : (c == x) = false := by
  have hb := digit_toNat hc
  exact beq_eq_false_iff_ne.mpr (char_ne_of_toNat_ne (by omega))

theorem digit_beq_false_lo {c x : Char} (hc : isDigitCh c = true)
    (hx : x.toNat < 48) : (c == x) = false := by
  have hb := digit_toNat hc
  exact beq_eq_false_iff_ne.mpr (char_ne_of_toNat_ne (by omega))

theorem digit_not_ws {c : Char} (hc : isDigitCh c = true) : isWsChar c = false := by
  have hb := digit_toNat hc
  simp only [isWsChar, Bool.or_eq_false_iff, beq_eq_false_iff_ne]
  omega

theorem digitChar_digit (k : Nat) : isDigitCh (digitChar k) = true := by
  unfold digitChar
  split <;> decide

theorem natToCharsAux_digits :
    ∀ (f n : Nat), ∀ c ∈ natToCharsAux f n, isDigitCh c = true := by
  intro f
  induction f with
  | zero => intro n c hc; simp [natToCharsAux] at hc
  | succ f ih =>
    intro n c hc
    simp only [natToCharsAux, List.append_eq] at hc
    by_cases h : n < 10
    · simp only [h, if_pos, List.mem_singleton] at hc
      subst hc
      exact digitChar_digit n
    · rw [if_neg h] at hc
      rcases List.mem_append.mp hc with hc2 | hc2
      · exact ih _ _ hc2
      · simp only [List.mem_singleton] at hc2
        subst hc2
        exact digitChar_digit _

theorem natToCharsAux_ne_nil (f n : Nat) : natToCharsAux (f + 1) n ≠ [] := by
  simp only [natToCharsAux]
  split
  · simp
  · simp

theorem natToChars_digits (n : Nat) : ∀ c ∈ natToChars n, isDigitCh c = true :=
  fun c hc => natToCharsAux_digits (n + 1) n c hc

theorem natToChars_shape (n : Nat) :
    ∃ c cs, natToChars n = c :: cs ∧ isDigitCh c = true ∧
      (∀ x ∈ cs, isDigitCh x = true) := by
  rcases h : natToChars n with _ | ⟨c, cs⟩
  · exact absurd h (natToCharsAux_ne_nil n n)
  · refine ⟨c, cs, rfl, ?_, ?_⟩
    · exact natToChars_digits n c (by rw [h]; exact List.mem_cons_self _ _)
    · intro x hx
      exact natToChars_digits n x (by rw [h]; exact List.mem_cons_of_mem _ hx)

theorem padZeros_digits (w : Nat) (l : List Char)
    (hl : ∀ c ∈ l, isDigitCh c = true) :
    ∀ c ∈ padZeros w l, isDigitCh c = true := by
  intro c hc
  simp only [padZeros, List.mem_append, List.mem_replicate] at hc
  rcases hc with ⟨-, rfl⟩ | hc
  · decide
  · exact hl c hc

theorem padZeros_ne_nil (w : Nat) (l : List Char) (hl : l ≠ []) :
    padZeros w l ≠ [] := by
  simp only [padZeros]
  intro h
  rcases List.append_eq_nil.mp h with ⟨-, h2⟩
  exact hl h2

theorem headNotDigit_of {l : List Char} (h : NotNumCont l) : HeadNotDigit l := by
  cases l with
  | nil => trivial
  | cons c cs => exact h.1

theorem skipWs_not_ws {c : Char} (l : List Char) (h : isWsChar c = false) :
    skipWs (c :: l) = c :: l := by
  simp [skipWs, h]

theorem skipWs_space (l : List Char) : skipWs (' ' :: l) = skipWs l := by
  simp [skipWs, isWsChar]

theorem skipStringBody_safe (l rest : List Char) (h : l.all jsonSafeChar = true) :
    skipStringBody (l ++ '"' :: rest) = some rest := by
  induction l with
  | nil =>
    rw [List.nil_append, skipStringBody.eq_def]
    simp
  | cons c cs ih =>
    have hc := List.all_eq_true.mp h c (List.mem_cons_self c cs)
    simp only [jsonSafeChar, Bool.and_eq_true, Bool.not_eq_true'] at hc
    have ht : cs.all jsonSafeChar = true :=
      List.all_eq_true.mpr (fun x hx => List.all_eq_true.mp h x (List.mem_cons_of_mem _ hx))
    rw [List.cons_append, skipStringBody.eq_def]
    simp [hc.1, hc.2, ih ht]

theorem dropWhile_digits (l rest : List Char)
    (hl : ∀ c ∈ l, isDigitCh c = true) (hr : HeadNotDigit rest) :
    List.dropWhile isDigitCh (l ++ rest) = rest := by
  induction l with
  | nil =>
    cases rest with
    | nil => rfl
    | cons c cs =>
      have : isDigitCh c = false := hr
      simp [List.dropWhile_cons, this]
  | cons c cs ih =>
    have hc : isDigitCh c = true := hl c (List.mem_cons_self c cs)
    simp [List.dropWhile_cons, hc, ih (fun x hx => hl x (List.mem_cons_of_mem _ hx))]

theorem skipDigits1_digits (c : Char) (cs rest : List Char)
    (hc : isDigitCh c = true) (hcs : ∀ x ∈ cs, isDigitCh x = true)
    (hr : HeadNotDigit rest) :
    skipDigits1 ((c :: cs) ++ rest) = some rest := by
  simp [skipDigits1, hc, dropWhile_digits cs rest hcs hr]

theorem skipFrac_id (rest : List Char) (hr : NotNumCont rest) :
    skipFrac rest = some rest := by
  cases rest with
  | nil => rfl
  | cons c cs =>
    have hne : (c == '.') = false := beq_eq_false_iff_ne.mpr hr.2.1
    simp [skipFrac, hne]

theorem skipExp_id (rest : List Char) (hr : NotNumCont rest) :
    skipExp rest = some rest := by
  cases rest with
  | nil => rfl
  | cons c cs =>
    have he : (c == 'e') = false := beq_eq_false_iff_ne.mpr hr.2.2.1
    have hE : (c == 'E') = false := beq_eq_false_iff_ne.mpr hr.2.2.2
    simp [skipExp, he, hE]

theorem skipNumber_print (m k : Nat) (rest : List Char) (hr : NotNumCont rest) :
    skipNumber (printV (.num m k) ++ rest) = some rest := by
  cases k with
  | zero =>
    obtain ⟨c, cs, hp, hc, hcs⟩ := natToChars_shape m
    have hpr : printV (.num m 0) = natToChars m := by simp [printV]
    have hminus : (c == '-') = false := digit_beq_false_lo hc (by decide)
    have hA : skipDigits1 (c :: (cs ++ rest)) = some rest := by
      have := skipDigits1_digits c cs rest hc hcs (headNotDigit_of hr)
      rwa [List.cons_append] at this
    rw [hpr, hp, List.cons_append, skipNumber.eq_def]
    simp [hminus, hA, skipFrac_id rest hr, skipExp_id rest hr]
  | succ k =>
    obtain ⟨c, cs, hp, hc, hcs⟩ := natToChars_shape (m / 10 ^ (k + 1))
    have hfr_digits := padZeros_digits (k + 1) (natToChars (m % 10 ^ (k + 1)))
      (natToChars_digits _)
    rcases hfr : padZeros (k + 1) (natToChars (m % 10 ^ (k + 1))) with _ | ⟨d, ds⟩
    · exact absurd hfr (padZeros_ne_nil _ _ (natToCharsAux_ne_nil _ _))
    · have hd : isDigitCh d = true :=
        hfr_digits d (by rw [hfr]; exact List.mem_cons_self _ _)
      have hds : ∀ x ∈ ds, isDigitCh x = true :=
        fun x hx => hfr_digits x (by rw [hfr]; exact List.mem_cons_of_mem _ hx)
      have hminus : (c == '-') = false := digit_beq_false_lo hc (by decide)
      have hdot : HeadNotDigit ('.' :: (d :: (ds ++ rest))) := by
        show isDigitCh '.' = false
        decide
      have hdrop : List.dropWhile isDigitCh (cs ++ '.' :: (d :: (ds ++ rest)))
          = '.' :: (d :: (ds ++ rest)) :=
        dropWhile_digits cs _ hcs hdot
      have hA : skipDigits1 (c :: (cs ++ '.' :: (d :: (ds ++ rest))))
          = some ('.' :: (d :: (ds ++ rest))) := by
        simp [skipDigits1, hc, hdrop]
      have hB2 : skipDigits1 (d :: (ds ++ rest)) = some rest := by
        have := skipDigits1_digits d ds rest hd hds (headNotDigit_of hr)
        rwa [List.cons_append] at this
      have hB : skipFrac ('.' :: (d :: (ds ++ rest))) = some rest := by
        rw [skipFrac.eq_def]
        simp [hB2]
      have hpr : printV (.num m (k + 1)) ++ rest
          = c :: (cs ++ '.' :: (d :: (ds ++ rest))) := by
        simp [printV, hp, hfr]
      rw [hpr, skipNumber.eq_def]
      simp [hminus, hA, hB, skipExp_id rest hr]

/-- Every printed value starts with a character that is not whitespace and
not a closing bracket. -/
theorem printV_shape (v : JVal) :
    ∃ c cs, printV v = c :: cs ∧ isWsChar c = false ∧
      (c == ']') = false ∧ (c == '\x7d') = false := by
  cases v with
  | null =>
    exact ⟨'\x6e', ['u', 'l', 'l'], by simp [printV], by decide, by decide, by decide⟩
  | bool b =>
    cases b with
    | true =>
      exact ⟨'\x74', ['r', 'u', 'e'], by simp [printV], by decide, by decide, by decide⟩
    | false =>
      exact ⟨'\x66', ['a', 'l', 's', 'e'], by simp [printV], by decide, by decide,
        by decide⟩
  | num m k =>
    cases k with
    | zero =>
      obtain ⟨c, cs, hp, hc, -⟩ := natToChars_shape m
      exact ⟨c, cs, by simp [printV, hp], digit_not_ws hc,
        digit_beq_false_hi hc (by decide), digit_beq_false_hi hc (by decide)⟩
    | succ k =>
      obtain ⟨c, cs, hp, hc, -⟩ := natToChars_shape (m / 10 ^ (k + 1))
      exact ⟨c, cs ++ '.' :: padZeros (k + 1) (natToChars (m % 10 ^ (k + 1))),
        by simp [printV, hp], digit_not_ws hc,
        digit_beq_false_hi hc (by decide), digit_beq_false_hi hc (by decide)⟩
  | str s =>
    exact ⟨'"', s.data ++ ['"'], by simp [printV], by decide, by decide, by decide⟩
  | arr a =>
    cases a with
    | nil => exact ⟨'[', [']'], by simp [printV], by decide, by decide, by decide⟩
    | cons h t =>
      exact ⟨'[', printV h ++ printA t, by simp [printV], by decide, by decide,
        by decide⟩
  | obj o =>
    cases o with
    | nil =>
      exact ⟨'\x7b', ['\x7d'], by simp [printV], by decide, by decide, by decide⟩
    | cons k v t =>
      exact ⟨'\x7b', printField k v ++ printO t, by simp [printV, printField], by decide,
        by decide, by decide⟩

theorem printA_shape (t : JArr) :
    ∃ c cs, printA t = c :: cs ∧ (c = ',' ∨ c = ']') := by
  cases t with
  | nil => exact ⟨']', [], by simp [printA], Or.inr rfl⟩
  | cons h t =>
    exact ⟨',', ' ' :: (printV h ++ printA t), by simp [printA], Or.inl rfl⟩

theorem printO_shape (o : JObj) :
    ∃ c cs, printO o = c :: cs ∧ (c = ',' ∨ c = '\x7d') := by
  cases o with
  | nil => exact ⟨'\x7d', [], by simp [printO], Or.inr rfl⟩
  | cons k v t =>
    exact ⟨',', ' ' :: (printField k v ++ printO t), by simp [printO, printField], Or.inl rfl⟩

theorem notNumCont_printA (t : JArr) (rest : List Char) :
    NotNumCont (printA t ++ rest) := by
  obtain ⟨c, cs, hp, hc⟩ := printA_shape t
  rw [hp, List.cons_append]
  rcases hc with rfl | rfl
  · exact ⟨by decide, by decide, by decide, by decide⟩
  · exact ⟨by decide, by decide, by decide, by decide⟩

theorem notNumCont_printO (o : JObj) (rest : List Char) :
    NotNumCont (printO o ++ rest) := by
  obtain ⟨c, cs, hp, hc⟩ := printO_shape o
  rw [hp, List.cons_append]
  rcases hc with rfl | rfl
  · exact ⟨by decide, by decide, by decide, by decide⟩
  · exact ⟨by decide, by decide, by decide, by decide⟩

theorem printV_pos (v : JVal) : 1 ≤ (printV v).length := by
  obtain ⟨c, cs, hp, -⟩ := printV_shape v
  simp [hp]

theorem printA_pos (t : JArr) : 1 ≤ (printA t).length := by
  obtain ⟨c, cs, hp, -⟩ := printA_shape t
  simp [hp]

theorem printO_pos (o : JObj) : 1 ≤ (printO o).length := by
  obtain ⟨c, cs, hp, -⟩ := printO_shape o
  simp [hp]

theorem fuelV_pos (v : JVal) : 1 ≤ fuelV v := by
  cases v <;> simp [fuelV]

mutual
theorem fuelV_le (v : JVal) : fuelV v ≤ (printV v).length + 1 := by
  cases v with
  | null => simp [fuelV, printV]
  | bool b => cases b <;> simp [fuelV, printV]
  | num m k =>
    have := printV_pos (JVal.num m k)
    have hf : fuelV (JVal.num m k) = 1 := by simp [fuelV]
    omega
  | str s =>
    have := printV_pos (JVal.str s)
    have hf : fuelV (JVal.str s) = 1 := by simp [fuelV]
    omega
  | arr a =>
    cases a with
    | nil => simp [fuelV, fuelA, printV]
    | cons h t =>
      have h1 := fuelV_le h
      have h2 := fuelA_le t
      have p1 := printV_pos h
      have p2 := printA_pos t
      have hmax : max (fuelV h) (fuelA t) ≤ (printV h).length + (printA t).length :=
        Nat.max_le.mpr ⟨by omega, by omega⟩
      simp only [fuelV, fuelA, printV, List.length_cons, List.length_append]
      omega
  | obj o =>
    cases o with
    | nil => simp [fuelV, fuelO, printV]
    | cons k v t =>
      have h1 := fuelV_le v
      have h2 := fuelO_le t
      have p1 := printV_pos v
      have p2 := printO_pos t
      have hmax : max (fuelV v) (fuelO t) ≤ (printV v).length + (printO t).length :=
        Nat.max_le.mpr ⟨by omega, by omega⟩
      simp only [fuelV, fuelO, printV, printField, List.length_cons,
        List.length_append]
      omega

theorem fuelA_le (t : JArr) : fuelA t ≤ (printA t).length := by
  cases t with
  | nil => simp [fuelA]
  | cons h t =>
    have h1 := fuelV_le h
    have h2 := fuelA_le t
    have p1 := printV_pos h
    have p2 := printA_pos t
    have hmax : max (fuelV h) (fuelA t) ≤ (printV h).length + (printA t).length :=
      Nat.max_le.mpr ⟨by omega, by omega⟩
    simp only [fuelA, printA, List.length_cons, List.length_append]
    omega

theorem fuelO_le (o : JObj) : fuelO o ≤ (printO o).length := by
  cases o with
  | nil => simp [fuelO]
  | cons k v t =>
    have h1 := fuelV_le v
    have h2 := fuelO_le t
    have p1 := printV_pos v
    have p2 := printO_pos t
    have hmax : max (fuelV v) (fuelO t) ≤ (printV v).length + (printO t).length :=
      Nat.max_le.mpr ⟨by omega, by omega⟩
    simp only [fuelO, printO, printField, List.length_cons, List.length_append]
    omega
end

/-- Round trip: the recognizer accepts every printed good value, consuming
exactly the printed text.  Proved by induction on the recognizer fuel,
jointly for values, array tails and object tails. -/
theorem rt_all (f : Nat) :
    (∀ (v : JVal) (rest : List Char), goodV v = true → NotNumCont rest →
      fuelV v ≤ f → skipVal f (printV v ++ rest) = some rest) ∧
    (∀ (h : JVal) (t : JArr) (rest : List Char), goodV h = true →
      goodA t = true → NotNumCont rest → fuelA (.cons h t) ≤ f →
      skipElems f (printV h ++ (printA t ++ rest)) = some rest) ∧
    (∀ (k : String) (v : JVal) (o : JObj) (rest : List Char),
      goodStr k = true → goodV v = true → goodO o = true → NotNumCont rest →
      fuelO (.cons k v o) ≤ f →
      skipMembers f (printField k v ++ (printO o ++ rest)) = some rest) := by
  induction f with
  | zero =>
    refine ⟨?_, ?_, ?_⟩
    · intro v rest _ _ hf
      have := fuelV_pos v
      omega
    · intro h t rest _ _ _ hf
      simp only [fuelA] at hf
      omega
    · intro k v o rest _ _ _ _ hf
      simp only [fuelO] at hf
      omega
  | succ f ih =>
    obtain ⟨ihV, ihA, ihO⟩ := ih
    refine ⟨?_, ?_, ?_⟩
    · intro v rest hg hr hf
      cases v with
      | null =>
        have hp : printV JVal.null ++ rest = 'n' :: 'u' :: 'l' :: 'l' :: rest := by
          simp [printV]
        rw [hp, skipVal.eq_def]
        simp [dropPfxL]
      | bool b =>
        cases b with
        | true =>
          have hp : printV (JVal.bool true) ++ rest
              = 't' :: 'r' :: 'u' :: 'e' :: rest := by simp [printV]
          rw [hp, skipVal.eq_def]
          simp [dropPfxL]
        | false =>
          have hp : printV (JVal.bool false) ++ rest
              = 'f' :: 'a' :: 'l' :: 's' :: 'e' :: rest := by simp [printV]
          rw [hp, skipVal.eq_def]
          simp [dropPfxL]
      | num m k =>
        obtain ⟨c, cs, hp, hc⟩ : ∃ c cs, printV (JVal.num m k) = c :: cs ∧
            isDigitCh c = true := by
          cases k with
          | zero =>
            obtain ⟨c, cs, hp2, hc2, -⟩ := natToChars_shape m
            exact ⟨c, cs, by simp [printV, hp2], hc2⟩
          | succ k =>
            obtain ⟨c, cs, hp2, hc2, -⟩ := natToChars_shape (m / 10 ^ (k + 1))
            exact ⟨c, cs ++ '.' :: padZeros (k + 1) (natToChars (m % 10 ^ (k + 1))),
              by simp [printV, hp2], hc2⟩
        have hnum := skipNumber_print m k rest hr
        rw [hp, List.cons_append] at hnum ⊢
        rw [skipVal.eq_def]
        simp [digit_beq_false_hi hc (show 57 < ('n').toNat by decide),
          digit_beq_false_hi hc (show 57 < ('t').toNat by decide),
          digit_beq_false_hi hc (show 57 < ('f').toNat by decide),
          digit_beq_false_lo hc (show ('"').toNat < 48 by decide),
          digit_beq_false_hi hc (show 57 < ('[').toNat by decide),
          digit_beq_false_hi hc (show 57 < ('\x7b').toNat by decide),
          hnum]
      | str s =>
        have hgs : s.data.all jsonSafeChar = true := by
          simpa [goodV, goodStr] using hg
        have hp : printV (JVal.str s) ++ rest = '"' :: (s.data ++ ('"' :: rest)) := by
          simp [printV]
        rw [hp, skipVal.eq_def]
        simp [skipStringBody_safe s.data rest hgs]
      | arr a =>
        cases a with
        | nil =>
          have hp : printV (JVal.arr JArr.nil) ++ rest = '[' :: (']' :: rest) := by
            simp [printV]
          have hsw : skipWs (']' :: rest) = ']' :: rest :=
            skipWs_not_ws rest (by decide)
          rw [hp, skipVal.eq_def]
          simp [hsw]
        | cons h t =>
          have hga : goodV h = true ∧ goodA t = true := by
            simpa [goodV, goodA] using hg
          obtain ⟨c0, cs0, hph, hw0, hb0, -⟩ := printV_shape h
          have hfa : fuelA (JArr.cons h t) ≤ f := by
            simp only [fuelV] at hf
            omega
          have hp : printV (JVal.arr (JArr.cons h t)) ++ rest
              = '[' :: (printV h ++ (printA t ++ rest)) := by simp [printV]
          have hsw : skipWs (printV h ++ (printA t ++ rest))
              = printV h ++ (printA t ++ rest) := by
            rw [hph, List.cons_append]
            exact skipWs_not_ws _ hw0
          have htail := ihA h t rest hga.1 hga.2 hr hfa
          rw [hp, skipVal.eq_def]
          simp only [hsw]
          rw [hph, List.cons_append]
          simp [hb0]
          rw [← List.cons_append, ← hph]
          exact htail
      | obj o =>
        cases o with
        | nil =>
          have hp : printV (JVal.obj JObj.nil) ++ rest = '\x7b' :: ('\x7d' :: rest) := by
            simp [printV]
          have hsw : skipWs ('\x7d' :: rest) = '\x7d' :: rest :=
            skipWs_not_ws rest (by decide)
          rw [hp, skipVal.eq_def]
          simp [hsw]
        | cons k v t =>
          have hgo : goodStr k = true ∧ goodV v = true ∧ goodO t = true := by
            simpa [goodV, goodO, Bool.and_assoc] using hg
          have hfo : fuelO (JObj.cons k v t) ≤ f := by
            simp only [fuelV] at hf
            omega
          have hp : printV (JVal.obj (JObj.cons k v t)) ++ rest
              = '\x7b' :: (printField k v ++ (printO t ++ rest)) := by
            simp [printV, printField]
          have hpf : printField k v ++ (printO t ++ rest)
              = '"' :: (k.data ++ ('"' :: (':' :: (' ' ::
                  (printV v ++ (printO t ++ rest)))))) := by
            simp [printField]
          have hsw : skipWs (printField k v ++ (printO t ++ rest))
              = printField k v ++ (printO t ++ rest) := by
            rw [hpf]
            exact skipWs_not_ws _ (by decide)
          have htail := ihO k v t rest hgo.1 hgo.2.1 hgo.2.2 hr hfo
          rw [hp, skipVal.eq_def]
          simp only [hsw]
          rw [hpf]
          simp only [show (('"' : Char) == '\x7d') = false from by decide]
          rw [← hpf]
          simp [htail]
    · intro h t rest hgh hgt hr hf
      have hfv : fuelV h ≤ f := by
        have := Nat.le_max_left (fuelV h) (fuelA t)
        simp only [fuelA] at hf
        omega
      have h1 : skipVal f (printV h ++ (printA t ++ rest)) = some (printA t ++ rest) :=
        ihV h (printA t ++ rest) hgh (notNumCont_printA t rest) hfv
      rw [skipElems.eq_def]
      simp only [h1]
      cases t with
      | nil =>
        have hpa : printA JArr.nil ++ rest = ']' :: rest := by simp [printA]
        have hsw : skipWs (']' :: rest) = ']' :: rest :=
          skipWs_not_ws rest (by decide)
        rw [hpa, hsw]
        simp
      | cons h2 t2 =>
        have hga2 : goodV h2 = true ∧ goodA t2 = true := by
          simpa [goodA] using hgt
        have hfa2 : fuelA (JArr.cons h2 t2) ≤ f := by
          have := Nat.le_max_right (fuelV h) (fuelA (JArr.cons h2 t2))
          simp only [fuelA] at hf ⊢
          omega
        obtain ⟨c2, cs2, hph2, hw2, -, -⟩ := printV_shape h2
        have hpa : printA (JArr.cons h2 t2) ++ rest
            = ',' :: (' ' :: (printV h2 ++ (printA t2 ++ rest))) := by simp [printA]
        have hsw2 : skipWs (printV h2 ++ (printA t2 ++ rest))
            = printV h2 ++ (printA t2 ++ rest) := by
          rw [hph2, List.cons_append]
          exact skipWs_not_ws _ hw2
        have hswc : skipWs (',' :: (' ' :: (printV h2 ++ (printA t2 ++ rest))))
            = ',' :: (' ' :: (printV h2 ++ (printA t2 ++ rest))) :=
          skipWs_not_ws _ (by decide)
        have htail := ihA h2 t2 rest hga2.1 hga2.2 hr hfa2
        rw [hpa, hswc]
        simp [skipWs_space, hsw2, htail]
    · intro k v o rest hgk hgv hgo hr hf
      have hfv : fuelV v ≤ f := by
        have := Nat.le_max_left (fuelV v) (fuelO o)
        simp only [fuelO] at hf
        omega
      have hks : k.data.all jsonSafeChar = true := hgk
      have hpf : printField k v ++ (printO o ++ rest)
          = '"' :: (k.data ++ ('"' :: (':' :: (' ' ::
              (printV v ++ (printO o ++ rest)))))) := by
        simp [printField]
      have hstr : skipStringBody (k.data ++ ('"' :: (':' :: (' ' ::
          (printV v ++ (printO o ++ rest))))))
          = some (':' :: (' ' :: (printV v ++ (printO o ++ rest)))) :=
        skipStringBody_safe k.data _ hks
      obtain ⟨cv, csv, hpv, hwv, -, -⟩ := printV_shape v
      have hswv : skipWs (printV v ++ (printO o ++ rest))
          = printV v ++ (printO o ++ rest) := by
        rw [hpv, List.cons_append]
        exact skipWs_not_ws _ hwv
      have hval : skipVal f (printV v ++ (printO o ++ rest))
          = some (printO o ++ rest) :=
        ihV v (printO o ++ rest) hgv (notNumCont_printO o rest) hfv
      rw [hpf, skipMembers.eq_def]
      simp only [show (('"' : Char) == '"') = true from by decide, if_pos]
      rw [hstr]
      simp only [skipWs_not_ws _ (show isWsChar ':' = false from by decide)]
      simp only [show ((':' : Char) == ':') = true from by decide, if_pos]
      rw [skipWs_space, hswv, hval]
      cases o with
      | nil =>
        have hpo : printO JObj.nil ++ rest = '\x7d' :: rest := by simp [printO]
        have hsw : skipWs ('\x7d' :: rest) = '\x7d' :: rest :=
          skipWs_not_ws rest (by decide)
        rw [hpo]
        simp [hsw]
      | cons k2 v2 t2 =>
        have hgo2 : goodStr k2 = true ∧ goodV v2 = true ∧ goodO t2 = true := by
          simpa [goodO, Bool.and_assoc] using hgo
        have hfo2 : fuelO (JObj.cons k2 v2 t2) ≤ f := by
          have := Nat.le_max_right (fuelV v) (fuelO (JObj.cons k2 v2 t2))
          simp only [fuelO] at hf ⊢
          omega
        have hpo : printO (JObj.cons k2 v2 t2) ++ rest
            = ',' :: (' ' :: (printField k2 v2 ++ (printO t2 ++ rest))) := by
          simp [printO, printField]
        have hswc : skipWs (',' :: (' ' :: (printField k2 v2 ++ (printO t2 ++ rest))))
            = ',' :: (' ' :: (printField k2 v2 ++ (printO t2 ++ rest))) :=
          skipWs_not_ws _ (by decide)
        have hpf2 : printField k2 v2 ++ (printO t2 ++ rest)
            = '"' :: (k2.data ++ ('"' :: (':' :: (' ' ::
                (printV v2 ++ (printO t2 ++ rest)))))) := by
          simp [printField]
        have hsw2 : skipWs (printField k2 v2 ++ (printO t2 ++ rest))
            = printField k2 v2 ++ (printO t2 ++ rest) := by
          rw [hpf2]
          exact skipWs_not_ws _ (by decide)
        have htail := ihO k2 v2 t2 rest hgo2.1 hgo2.2.1 hgo2.2.2 hr hfo2
        rw [hpo]
        simp [hswc, skipWs_space, hsw2, htail]

theorem jsonAccepts_print (v : JVal) (hg : goodV v = true) :
    jsonAcceptsL (printV v) = true := by
  obtain ⟨c, cs, hp, hw, -, -⟩ := printV_shape v
  have hfuel : fuelV v ≤ (printV v).length + 2 := by
    have := fuelV_le v
    omega
  have h1 : skipVal ((printV v).length + 2) (printV v ++ []) = some [] :=
    (rt_all _).1 v [] hg trivial hfuel
  rw [List.append_nil] at h1
  have hsw : skipWs (printV v) = printV v := by
    rw [hp]
    exact skipWs_not_ws _ hw
  unfold jsonAcceptsL
  rw [hsw, h1]
  simp [skipWs]

theorem jsonSafeChar_digit {c : Char} (hc : isDigitCh c = true) :
    jsonSafeChar c = true := by
  simp only [jsonSafeChar, Bool.and_eq_true, Bool.not_eq_true']
  exact ⟨digit_beq_false_lo hc (by decide), digit_beq_false_hi hc (by decide)⟩

theorem goodStr_strftime (d : Date) : goodStr (strftimeYmd d) = true := by
  unfold goodStr strftimeYmd
  rw [List.all_eq_true]
  intro c hc
  have hc2 : c ∈ padZeros 4 (natToChars d.year) ∨ c = '-' ∨
      c ∈ padZeros 2 (natToChars d.month) ∨ c = '-' ∨
      c ∈ padZeros 2 (natToChars d.day) := by
    simpa [List.mem_append, List.mem_cons, or_assoc] using hc
  rcases hc2 with h | rfl | h | rfl | h
  · exact jsonSafeChar_digit (padZeros_digits _ _ (natToChars_digits _) c h)
  · decide
  · exact jsonSafeChar_digit (padZeros_digits _ _ (natToChars_digits _) c h)
  · decide
  · exact jsonSafeChar_digit (padZeros_digits _ _ (natToChars_digits _) c h)

theorem goodV_fallbackJson (ds : String) (h : goodStr ds = true) :
    goodV (Main.fallbackJson ds) = true := by
  simp only [Main.fallbackJson, jobj, jarr, JObj.ofList, JArr.ofList,
    goodV, goodA, goodO, h, Bool.true_and, Bool.and_true]
  decide

/-- C10: every value returned by the `main.py` `process_trip_planner_query`
is a string accepted as JSON: the generated text is returned only after
fence stripping with `json.loads` succeeding on it, and in every other
case the JSON-serialized fallback schedule is returned — which itself is
always accepted as JSON. -/
theorem trip_planner_output_valid_json (env : Env) (q : String) :
    jsonAccepts (Main.process_trip_planner_query env q).1 = true ∧
    (∀ t, env.useLlm q Main.TRIP_PLANNER_SYSTEM_PROMPT = .ok t →
      (jsonAcceptsL (Main.stripFences (pyStripL t.data)) = true →
        (Main.process_trip_planner_query env q).1
          = ⟨Main.stripFences (pyStripL t.data)⟩) ∧
      (jsonAcceptsL (Main.stripFences (pyStripL t.data)) = false →
        (Main.process_trip_planner_query env q).1
          = Main.generate_fallback_schedule env.today)) ∧
    (∀ e, env.useLlm q Main.TRIP_PLANNER_SYSTEM_PROMPT = .error e →
      (Main.process_trip_planner_query env q).1
        = Main.generate_fallback_schedule env.today) := by
  have hfb : jsonAccepts (Main.generate_fallback_schedule env.today) = true := by
    have hg := goodV_fallbackJson (strftimeYmd env.today) (goodStr_strftime env.today)
    have h2 := jsonAccepts_print _ hg
    simpa [Main.generate_fallback_schedule, jsonDumps, jsonAccepts] using h2
  refine ⟨?_, ?_, ?_⟩
  · rcases hgen : env.useLlm q Main.TRIP_PLANNER_SYSTEM_PROMPT with e | t
    · simp [Main.process_trip_planner_query, hgen, hfb]
    · by_cases hj : jsonAcceptsL (Main.stripFences (pyStripL t.data)) = true
      · have hout : (Main.process_trip_planner_query env q).1
            = ⟨Main.stripFences (pyStripL t.data)⟩ := by
          simp [Main.process_trip_planner_query, hgen, hj]
        rw [hout]
        exact hj
      · simp only [Bool.not_eq_true] at hj
        simp [Main.process_trip_planner_query, hgen, hj, hfb]
  · intro t ht
    constructor
    · intro hj
      simp [Main.process_trip_planner_query, ht, hj]
    · intro hj
      simp [Main.process_trip_planner_query, ht, hj]
  · intro e he
    simp [Main.process_trip_planner_query, he]

/-- Environment whose generation capability returns the already-valid JSON
text "null". -/
def envJson : Env :=
  { useLlm := fun _ _ => .ok "null"
    memStore := fun _ => .ok ()
    memRetrieve := fun _ _ _ => .ok none
    structuredOutput := fun _ => .error { msg := "x" }
    today := { year := 2025, month := 1, day := 1 } }

/-- Witness for C10 at a concrete environment: the handler passes valid
generated JSON through unchanged, and the output is accepted as JSON. -/
theorem trip_planner_output_valid_json_witness :
    (Main.process_trip_planner_query envJson "plan a trip").1 = "null" ∧
    jsonAccepts (Main.process_trip_planner_query envJson "plan a trip").1 = true := by
  have h := trip_planner_output_valid_json envJson "plan a trip"
  have h2 := (h.2.1 "null" rfl).1 (by decide)
  refine ⟨?_, h.1⟩
  rw [h2]
  decide
